import Mathlib

/-!
Verification of the Brewery Planner calculation and scenario-data engine
(`breweryplanner.py`) against its natural-language specification.

The Python source is shallowly embedded: dataframe rows become Lean
structures, Python floats become rationals (`ℚ`, exact arithmetic over the
same field operations the code performs), dicts become association lists
with insert-or-replace update semantics, and fallible paths return
`Option`.  Every definition below is translated from the source file;
definitions that instead transcribe the specification's words (for
comparison against the code) are explicitly named and documented as such.
-/

/-- Cost premises record (`premissas` dict): the four per-liter indirect
cost components, the sales-tax percent and working-capital months.
Mirrors the keys used by `calc_gip_total` / `compute_monthly_dre`. -/
structure Prem where
  gipQuimicos : ℚ
  gipEnergia : ℚ
  gipAgua : ℚ
  gipCO2 : ℚ
  impostosPct : ℚ
  capitalGiroMeses : ℚ
  deriving DecidableEq, Repr

/-- `calc_gip_total` (line 577): sum of the four GIP per-liter components. -/
def calc_gip_total (prem : Prem) : ℚ :=
  prem.gipQuimicos + prem.gipEnergia + prem.gipAgua + prem.gipCO2

/-- One row of `receitas_header`: {ID, Nome, Volume Batelada (L)}. -/
structure RecipeHeader where
  id : ℤ
  nome : String
  vol : ℚ
  deriving DecidableEq, Repr

/-- One row of `receitas_detalhe`: {Receita_ID, Insumo, Qtd, Custo_Unit,
Custo_Total}. -/
structure RecipeLine where
  receitaId : ℤ
  insumo : String
  qtd : ℚ
  custoUnit : ℚ
  custoTotal : ℚ
  deriving DecidableEq, Repr

/-- One row of `precos_sku`: {SKU, Canal, Preço Unit (R$)}. -/
structure Preco where
  sku : String
  canal : String
  preco : ℚ
  deriving DecidableEq, Repr

/-- One row of `embalagens_db`: {Embalagem, Volume (L), Custo Unit (R$)}. -/
structure Emb where
  embalagem : String
  vol : ℚ
  custo : ℚ
  deriving DecidableEq, Repr

/-- `recipe_cost_per_liter` (lines 608-633).  The requested name is an
`Option String`: `none` models a falsy `recipe_name` (Python
`not recipe_name`).  Row selection `df[df["Nome"] == name].iloc[0]` is the
first header whose name matches; the detail filter keeps the lines whose
`Receita_ID` equals the selected header's `ID`. -/
def recipe_cost_per_liter (rh : List RecipeHeader) (rd : List RecipeLine)
    (prem : Prem) (recipeName : Option String) : ℚ :=
  let gip := calc_gip_total prem
  match rh with
  | [] => gip
  | h :: t =>
    let names := (h :: t).map (·.nome)
    let effName :=
      match recipeName with
      | none => h.nome
      | some n => if n = "" ∨ n ∉ names then h.nome else n
    let row := ((h :: t).find? (fun r => r.nome = effName)).getD h
    let vol := row.vol
    let det := rd.filter (fun l => l.receitaId = row.id)
    if det = [] ∨ vol ≤ 0 then gip
    else (det.map (·.custoTotal)).sum / vol + gip

/-- `get_price` (lines 636-640): first row matching (SKU, Canal), else 0. -/
def get_price (precos : List Preco) (sku canal : String) : ℚ :=
  match precos.find? (fun p => p.sku = sku ∧ p.canal = canal) with
  | none => 0
  | some p => p.preco

/-- `get_pack_cost` (lines 643-647): first row matching the packaging
name, else (0, 0). -/
def get_pack_cost (embs : List Emb) (embalagem : String) : ℚ × ℚ :=
  match embs.find? (fun e => e.embalagem = embalagem) with
  | none => (0, 0)
  | some e => (e.vol, e.custo)

/-- The clamping comprehension inside `normalize_dist` (line 651):
`{k: max(0.0, float(v or 0.0)) ...}`.  A distribution value is
`Option ℚ`; `none` models a missing/`None` value, which `v or 0.0`
turns into 0. -/
def clamp_dist (dist : List (String × Option ℚ)) : List (String × ℚ) :=
  dist.map (fun p => (p.1, max 0 (p.2.getD 0)))

/-- `normalize_dist` (lines 650-655): clamp every value to ≥ 0, return the
clamped map unchanged when its total is ≤ 0, otherwise rescale each value
to value/total × 100. -/
def normalize_dist (dist : List (String × Option ℚ)) : List (String × ℚ) :=
  let clean := clamp_dist dist
  let s := (clean.map (·.2)).sum
  if s ≤ 0 then clean
  else clean.map (fun p => (p.1, p.2 / s * 100))

/-- Result record of `compute_monthly_dre` (the returned dict,
lines 712-723). -/
structure Dre where
  receitaBruta : ℚ
  impostos : ℚ
  cmvLiquido : ℚ
  custoEmbalagens : ℚ
  custoCopos : ℚ
  cmvTotal : ℚ
  margem : ℚ
  taproomCopos : ℚ
  varejoChopeL : ℚ
  varejoEmbaladoL : ℚ
  deriving DecidableEq, Repr

/-- The packaging allocation loop of `compute_monthly_dre`
(lines 694-702): folds over the normalized distribution accumulating
(receita_emb, custo_embalagem_total); entries whose packaging
volume-per-unit is ≤ 0 are skipped. -/
def emb_alloc_step (volVemb : ℚ) (embs : List Emb) (precos : List Preco)
    (acc : ℚ × ℚ) (entry : String × ℚ) : ℚ × ℚ :=
  let vol := volVemb * (entry.2 / 100)
  let vc := get_pack_cost embs entry.1
  if vc.1 ≤ 0 then acc
  else
    let unidades := vol / vc.1
    let precoU := get_price precos entry.1 "Varejo"
    (acc.1 + unidades * precoU, acc.2 + unidades * vc.2)

/-- `compute_monthly_dre` (lines 658-723), translated clause by clause.
`copo_vol_l or 0.473` is Python truthiness: the default replaces the
looked-up volume exactly when that volume equals 0. -/
def compute_monthly_dre (volumeMesL mixTaproom mixVarejoChope mixVarejoEmb : ℚ)
    (distEmbPercent : List (String × Option ℚ)) (receitaBaseNome : Option String)
    (rh : List RecipeHeader) (rd : List RecipeLine)
    (embs : List Emb) (precos : List Preco) (prem : Prem) : Dre :=
  let vol := max 0 volumeMesL
  let impostosPct := prem.impostosPct / 100
  let custoLiquidoL := recipe_cost_per_liter rh rd prem receitaBaseNome
  let volTap := vol * (mixTaproom / 100)
  let volVch := vol * (mixVarejoChope / 100)
  let volVemb := vol * (mixVarejoEmb / 100)
  let precoChopeL := get_price precos "Chope (R$/L)" "Varejo"
  let precoCopo := get_price precos "Copo Taproom" "Taproom"
  let copoPack := get_pack_cost embs "Copo Taproom"
  let copoVolL := if copoPack.1 = 0 then 473 / 1000 else copoPack.1
  let cups := if copoVolL > 0 then volTap / copoVolL else 0
  let receitaTap := cups * precoCopo
  let custoCopoTotal := cups * copoPack.2
  let receitaVch := volVch * precoChopeL
  let distEmb := normalize_dist distEmbPercent
  let rc := distEmb.foldl (emb_alloc_step volVemb embs precos) (0, 0)
  let receitaBruta := receitaTap + receitaVch + rc.1
  let impostos := receitaBruta * impostosPct
  let cmvLiquido := vol * custoLiquidoL
  let cmv := cmvLiquido + rc.2 + custoCopoTotal
  let margem := receitaBruta - impostos - cmv
  { receitaBruta := receitaBruta
    impostos := impostos
    cmvLiquido := cmvLiquido
    custoEmbalagens := rc.2
    custoCopos := custoCopoTotal
    cmvTotal := cmv
    margem := margem
    taproomCopos := cups
    varejoChopeL := volVch
    varejoEmbaladoL := volVemb }

/-- `pmt_price` (lines 726-731): Price/French fixed installment; 0 for a
non-positive period count, straight-line for a non-positive rate. -/
def pmt_price (pv rateMonth : ℚ) (nper : ℤ) : ℚ :=
  if nper ≤ 0 then 0
  else if rateMonth ≤ 0 then pv / nper
  else pv * rateMonth / (1 - (1 + rateMonth) ^ (-nper))

/-- The loop of `build_payback_series` (lines 738-742): `rem` months left
to simulate, `m` the current month index, `acc` the running balance,
`payM` the payback month found so far.  Returns the balances appended by
the loop and the final payback month. -/
def payback_go (monthlyCash : ℚ) : ℕ → ℕ → ℚ → Option ℕ → List ℚ × Option ℕ
  | 0, _, _, payM => ([], payM)
  | rem + 1, m, acc, payM =>
    let acc' := acc + monthlyCash
    let payM' := if acc' ≥ 0 ∧ payM = none then some m else payM
    let rest := payback_go monthlyCash rem (m + 1) acc' payM'
    (acc' :: rest.1, rest.2)

/-- `build_payback_series` (lines 734-744): month-0 balance is `-invest`,
each later month adds `monthlyCash`; the loop reports the first month
`m ≥ 1` whose running balance is ≥ 0 (the source defaults `months` to 84). -/
def build_payback_series (invest monthlyCash : ℚ) (months : ℕ) :
    List ℚ × Option ℕ :=
  let r := payback_go monthlyCash months 1 (-invest) none
  ((-invest) :: r.1, r.2)

/-- The fixed installment of the financed payback view (line 1611):
`pmt_price(valor_fin, i_m, max(1, prazo - carencia))`. -/
def financed_installment (valorFin iM : ℚ) (prazo carencia : ℕ) : ℚ :=
  pmt_price valorFin iM (max 1 ((prazo : ℤ) - (carencia : ℤ)))

/-- The per-month debt payment of the financed payback loop (line 1639):
interest only (`valor_fin * i_m`, line 1612) during months `1..carencia`,
the fixed installment afterwards. -/
def financed_pay (valorFin iM : ℚ) (prazo carencia : ℕ) (m : ℕ) : ℚ :=
  if m ≤ carencia then valorFin * iM
  else financed_installment valorFin iM prazo carencia

/-- The loop of the financed payback series (lines 1635-1643); each month
adds `lucro_operacional - pay` to the balance. -/
def financed_payback_go (lucroOperacional valorFin iM : ℚ)
    (prazo carencia : ℕ) : ℕ → ℕ → ℚ → Option ℕ → List ℚ × Option ℕ
  | 0, _, _, payM => ([], payM)
  | rem + 1, m, acc, payM =>
    let acc' := acc + (lucroOperacional - financed_pay valorFin iM prazo carencia m)
    let payM' := if acc' ≥ 0 ∧ payM = none then some m else payM
    let rest := financed_payback_go lucroOperacional valorFin iM prazo carencia rem (m + 1) acc' payM'
    (acc' :: rest.1, rest.2)

/-- The financed payback series (lines 1635-1644): like
`build_payback_series` but deducting the month's debt payment from the
operating cash; the source iterates months 1..84. -/
def build_financed_payback_series (invest lucroOperacional valorFin iM : ℚ)
    (prazo carencia : ℕ) (months : ℕ) : List ℚ × Option ℕ :=
  let r := financed_payback_go lucroOperacional valorFin iM prazo carencia months 1 (-invest) none
  ((-invest) :: r.1, r.2)

/-- Spec-side comparison definition for C4 (transcribing the claim's
words, not the source): "the reported payback month is the first month
index at which the cumulative balance is ≥ 0", where month indices of the
series run from 0 to `months` and the month-m balance is
`-invest + m * monthlyCash`. -/
def paybackMonthSpecC4 (invest monthlyCash : ℚ) (months : ℕ) : Option ℕ :=
  (List.range (months + 1)).find? (fun m => decide (0 ≤ -invest + (m : ℚ) * monthlyCash))

/-! ### JSON-document model for `load_db` (store load and migration) -/

/-- JSON-like values of the persisted store document.  Objects are
association lists in insertion order (Python dict order); numbers are
rationals. -/
inductive J : Type where
  | null : J
  | b (bb : Bool) : J
  | num (q : ℚ) : J
  | str (s : String) : J
  | arr (l : List J) : J
  | obj (l : List (String × J)) : J

/-- Python dict lookup `d.get(k)` on an association list (first match;
keys are unique in a dict, so first match is the match). -/
def alLookup {α : Type} (k : String) : List (String × α) → Option α
  | [] => none
  | p :: t => if p.1 = k then some p.2 else alLookup k t

/-- Python dict assignment `d[k] = v`: replace in place if the key
exists, else append. -/
def alInsert {α : Type} (k : String) (v : α) : List (String × α) → List (String × α)
  | [] => [(k, v)]
  | p :: t => if p.1 = k then (k, v) :: t else p :: alInsert k v t

/-- Python dict deletion (`d.pop(k)` dropping the value). -/
def alRemove {α : Type} (k : String) : List (String × α) → List (String × α)
  | [] => []
  | p :: t => if p.1 = k then t else p :: alRemove k t

/-- Python truthiness of a JSON value (`bool(v)`). -/
def jTruthy : J → Bool
  | J.null => false
  | J.b bb => bb
  | J.num q => q != 0
  | J.str s => s != ""
  | J.arr l => !l.isEmpty
  | J.obj l => !l.isEmpty

/-- Python `str()` as applied to migration-2 scenario names (line 437).
Exact for strings (the only name type the documented legacy shapes
carry); non-string name values are rendered approximately (their exact
float formatting is irrelevant to every claim). -/
def pyStr : J → String
  | J.str s => s
  | J.num q => toString q
  | J.b true => "True"
  | J.b false => "False"
  | J.null => "None"
  | J.arr _ => "<list>"
  | J.obj _ => "<dict>"

/-- `default_scenario()` (lines 235-382), transcribed value for value
into the JSON model. -/
def default_scenario_j : List (String × J) :=
  [("capex_db", J.arr [
      J.obj [("Categoria", J.str "Produção Quente"), ("Item", J.str "Tribloco 500L Industrial"), ("Valor", J.num 68000), ("Status", J.str "Orçado")],
      J.obj [("Categoria", J.str "Produção Quente"), ("Item", J.str "Moinho de Rolos Alta Capacidade"), ("Valor", J.num 4500), ("Status", J.str "Pendente")],
      J.obj [("Categoria", J.str "Fermentação"), ("Item", J.str "Fermentador Cônico 500L (Unid 1)"), ("Valor", J.num 14500), ("Status", J.str "Orçado")],
      J.obj [("Categoria", J.str "Fermentação"), ("Item", J.str "Fermentador Cônico 500L (Unid 2)"), ("Valor", J.num 14500), ("Status", J.str "Orçado")],
      J.obj [("Categoria", J.str "Fermentação"), ("Item", J.str "Fermentador Cônico 500L (Unid 3)"), ("Valor", J.num 14500), ("Status", J.str "Orçado")],
      J.obj [("Categoria", J.str "Fermentação"), ("Item", J.str "Fermentador Cônico 500L (Unid 4)"), ("Valor", J.num 14500), ("Status", J.str "Orçado")],
      J.obj [("Categoria", J.str "Frio"), ("Item", J.str "Chiller 15.000 kcal + Bomba Glicol"), ("Valor", J.num 18500), ("Status", J.str "Pendente")],
      J.obj [("Categoria", J.str "Frio"), ("Item", J.str "Câmara Fria Modular (3x3m)"), ("Valor", J.num 12000), ("Status", J.str "Pendente")],
      J.obj [("Categoria", J.str "Envase"), ("Item", J.str "Envasadora Counter Pressure Semi-auto"), ("Valor", J.num 3500), ("Status", J.str "Comprado")],
      J.obj [("Categoria", J.str "Logística"), ("Item", J.str "Parque Barris Inox (Lote A)"), ("Valor", J.num 16500), ("Status", J.str "Pendente")],
      J.obj [("Categoria", J.str "Infraestrutura"), ("Item", J.str "Adequação Civil e Piso"), ("Valor", J.num 35000), ("Status", J.str "Estimado")],
      J.obj [("Categoria", J.str "Infraestrutura"), ("Item", J.str "Licenciamento e Projetos"), ("Valor", J.num 5000), ("Status", J.str "Estimado")]]),
   ("opex_outros_db", J.arr [
      J.obj [("Descrição", J.str "Aluguel Galpão"), ("Valor", J.num 5000)],
      J.obj [("Descrição", J.str "Energia (Fixo)"), ("Valor", J.num 1500)],
      J.obj [("Descrição", J.str "Marketing"), ("Valor", J.num 2000)],
      J.obj [("Descrição", J.str "Internet/Telefonia"), ("Valor", J.num 250)],
      J.obj [("Descrição", J.str "Contabilidade"), ("Valor", J.num 300)]]),
   ("funcionarios_db", J.arr [
      J.obj [("Nome", J.str "Cervejeiro(a)"), ("Modalidade", J.str "CLT"), ("Salário Bruto", J.num 4500), ("Encargos CLT (%)", J.num 70), ("Considerar 13º", J.b true), ("Considerar Férias", J.b true)],
      J.obj [("Nome", J.str "Auxiliar Produção"), ("Modalidade", J.str "CLT"), ("Salário Bruto", J.num 2500), ("Encargos CLT (%)", J.num 70), ("Considerar 13º", J.b true), ("Considerar Férias", J.b true)],
      J.obj [("Nome", J.str "Vendas (PJ)"), ("Modalidade", J.str "PJ"), ("Salário Bruto", J.num 2200), ("Encargos CLT (%)", J.num 0), ("Considerar 13º", J.b false), ("Considerar Férias", J.b false)]]),
   ("insumos_db", J.arr [
      J.obj [("Tipo", J.str "Malte"), ("Nome", J.str "Malte Pilsen Agrária"), ("Unidade", J.str "kg"), ("Custo", J.num (69/10))],
      J.obj [("Tipo", J.str "Malte"), ("Nome", J.str "Malte Pale Ale"), ("Unidade", J.str "kg"), ("Custo", J.num (15/2))],
      J.obj [("Tipo", J.str "Malte"), ("Nome", J.str "Malte Caramelo"), ("Unidade", J.str "kg"), ("Custo", J.num 11)],
      J.obj [("Tipo", J.str "Malte"), ("Nome", J.str "Malte Trigo (Weiss)"), ("Unidade", J.str "kg"), ("Custo", J.num 8)],
      J.obj [("Tipo", J.str "Malte"), ("Nome", J.str "Malte Torrado/Chocolate"), ("Unidade", J.str "kg"), ("Custo", J.num 14)],
      J.obj [("Tipo", J.str "Lúpulo"), ("Nome", J.str "Lúpulo Citra"), ("Unidade", J.str "kg"), ("Custo", J.num 320)],
      J.obj [("Tipo", J.str "Lúpulo"), ("Nome", J.str "Lúpulo Magnum (Amargor)"), ("Unidade", J.str "kg"), ("Custo", J.num 180)],
      J.obj [("Tipo", J.str "Lúpulo"), ("Nome", J.str "Lúpulo Cascade"), ("Unidade", J.str "kg"), ("Custo", J.num 250)],
      J.obj [("Tipo", J.str "Lúpulo"), ("Nome", J.str "Lúpulo Saaz (Lager)"), ("Unidade", J.str "kg"), ("Custo", J.num 280)],
      J.obj [("Tipo", J.str "Lúpulo"), ("Nome", J.str "Lúpulo Hallertau"), ("Unidade", J.str "kg"), ("Custo", J.num 290)],
      J.obj [("Tipo", J.str "Levedura"), ("Nome", J.str "US-05 (Ale Americana)"), ("Unidade", J.str "pct"), ("Custo", J.num 28)],
      J.obj [("Tipo", J.str "Levedura"), ("Nome", J.str "S-04 (Ale Inglesa/Stout)"), ("Unidade", J.str "pct"), ("Custo", J.num 26)],
      J.obj [("Tipo", J.str "Levedura"), ("Nome", J.str "W-34/70 (Lager)"), ("Unidade", J.str "pct"), ("Custo", J.num 35)],
      J.obj [("Tipo", J.str "Levedura"), ("Nome", J.str "WB-06 (Weiss)"), ("Unidade", J.str "pct"), ("Custo", J.num 30)]]),
   ("receitas_header", J.arr [
      J.obj [("ID", J.num 1), ("Nome", J.str "American IPA"), ("Volume Batelada (L)", J.num 500)],
      J.obj [("ID", J.num 2), ("Nome", J.str "Classic APA"), ("Volume Batelada (L)", J.num 500)],
      J.obj [("ID", J.num 3), ("Nome", J.str "Pilsen Padrão"), ("Volume Batelada (L)", J.num 500)],
      J.obj [("ID", J.num 4), ("Nome", J.str "Dry Stout"), ("Volume Batelada (L)", J.num 500)],
      J.obj [("ID", J.num 5), ("Nome", J.str "Weissbier"), ("Volume Batelada (L)", J.num 500)]]),
   ("receitas_detalhe", J.arr [
      J.obj [("Receita_ID", J.num 1), ("Insumo", J.str "Malte Pale Ale"), ("Qtd", J.num 110), ("Custo_Unit", J.num (15/2)), ("Custo_Total", J.num 825)],
      J.obj [("Receita_ID", J.num 1), ("Insumo", J.str "Malte Caramelo"), ("Qtd", J.num 8), ("Custo_Unit", J.num 11), ("Custo_Total", J.num 88)],
      J.obj [("Receita_ID", J.num 1), ("Insumo", J.str "Lúpulo Magnum (Amargor)"), ("Qtd", J.num (1/2)), ("Custo_Unit", J.num 180), ("Custo_Total", J.num 90)],
      J.obj [("Receita_ID", J.num 1), ("Insumo", J.str "Lúpulo Citra"), ("Qtd", J.num 4), ("Custo_Unit", J.num 320), ("Custo_Total", J.num 1280)],
      J.obj [("Receita_ID", J.num 1), ("Insumo", J.str "US-05 (Ale Americana)"), ("Qtd", J.num 30), ("Custo_Unit", J.num 28), ("Custo_Total", J.num 840)],
      J.obj [("Receita_ID", J.num 2), ("Insumo", J.str "Malte Pale Ale"), ("Qtd", J.num 100), ("Custo_Unit", J.num (15/2)), ("Custo_Total", J.num 750)],
      J.obj [("Receita_ID", J.num 2), ("Insumo", J.str "Malte Caramelo"), ("Qtd", J.num 5), ("Custo_Unit", J.num 11), ("Custo_Total", J.num 55)],
      J.obj [("Receita_ID", J.num 2), ("Insumo", J.str "Lúpulo Cascade"), ("Qtd", J.num (5/2)), ("Custo_Unit", J.num 250), ("Custo_Total", J.num 625)],
      J.obj [("Receita_ID", J.num 2), ("Insumo", J.str "US-05 (Ale Americana)"), ("Qtd", J.num 25), ("Custo_Unit", J.num 28), ("Custo_Total", J.num 700)],
      J.obj [("Receita_ID", J.num 3), ("Insumo", J.str "Malte Pilsen Agrária"), ("Qtd", J.num 95), ("Custo_Unit", J.num (69/10)), ("Custo_Total", J.num (1311/2))],
      J.obj [("Receita_ID", J.num 3), ("Insumo", J.str "Malte Caramelo"), ("Qtd", J.num 3), ("Custo_Unit", J.num 11), ("Custo_Total", J.num 33)],
      J.obj [("Receita_ID", J.num 3), ("Insumo", J.str "Lúpulo Magnum (Amargor)"), ("Qtd", J.num (3/10)), ("Custo_Unit", J.num 180), ("Custo_Total", J.num 54)],
      J.obj [("Receita_ID", J.num 3), ("Insumo", J.str "Lúpulo Saaz (Lager)"), ("Qtd", J.num 1), ("Custo_Unit", J.num 280), ("Custo_Total", J.num 280)],
      J.obj [("Receita_ID", J.num 3), ("Insumo", J.str "W-34/70 (Lager)"), ("Qtd", J.num 40), ("Custo_Unit", J.num 35), ("Custo_Total", J.num 1400)],
      J.obj [("Receita_ID", J.num 4), ("Insumo", J.str "Malte Pale Ale"), ("Qtd", J.num 85), ("Custo_Unit", J.num (15/2)), ("Custo_Total", J.num (1275/2))],
      J.obj [("Receita_ID", J.num 4), ("Insumo", J.str "Malte Torrado/Chocolate"), ("Qtd", J.num 10), ("Custo_Unit", J.num 14), ("Custo_Total", J.num 140)],
      J.obj [("Receita_ID", J.num 4), ("Insumo", J.str "Malte Caramelo"), ("Qtd", J.num 5), ("Custo_Unit", J.num 11), ("Custo_Total", J.num 55)],
      J.obj [("Receita_ID", J.num 4), ("Insumo", J.str "Lúpulo Magnum (Amargor)"), ("Qtd", J.num (4/5)), ("Custo_Unit", J.num 180), ("Custo_Total", J.num 144)],
      J.obj [("Receita_ID", J.num 4), ("Insumo", J.str "S-04 (Ale Inglesa/Stout)"), ("Qtd", J.num 25), ("Custo_Unit", J.num 26), ("Custo_Total", J.num 650)],
      J.obj [("Receita_ID", J.num 5), ("Insumo", J.str "Malte Trigo (Weiss)"), ("Qtd", J.num 50), ("Custo_Unit", J.num 8), ("Custo_Total", J.num 400)],
      J.obj [("Receita_ID", J.num 5), ("Insumo", J.str "Malte Pilsen Agrária"), ("Qtd", J.num 50), ("Custo_Unit", J.num (69/10)), ("Custo_Total", J.num 345)],
      J.obj [("Receita_ID", J.num 5), ("Insumo", J.str "Lúpulo Hallertau"), ("Qtd", J.num (3/5)), ("Custo_Unit", J.num 290), ("Custo_Total", J.num 174)],
      J.obj [("Receita_ID", J.num 5), ("Insumo", J.str "WB-06 (Weiss)"), ("Qtd", J.num 25), ("Custo_Unit", J.num 30), ("Custo_Total", J.num 750)]]),
   ("embalagens_db", J.arr [
      J.obj [("Embalagem", J.str "Lata 473ml"), ("Volume (L)", J.num (473/1000)), ("Custo Unit (R$)", J.num (8/5))],
      J.obj [("Embalagem", J.str "Garrafa 600ml"), ("Volume (L)", J.num (3/5)), ("Custo Unit (R$)", J.num (7/5))],
      J.obj [("Embalagem", J.str "Long Neck"), ("Volume (L)", J.num (33/100)), ("Custo Unit (R$)", J.num (11/10))],
      J.obj [("Embalagem", J.str "Barril 30L"), ("Volume (L)", J.num 30), ("Custo Unit (R$)", J.num 0)],
      J.obj [("Embalagem", J.str "Barril 50L"), ("Volume (L)", J.num 50), ("Custo Unit (R$)", J.num 0)],
      J.obj [("Embalagem", J.str "PET Growler 1,5L"), ("Volume (L)", J.num (3/2)), ("Custo Unit (R$)", J.num (11/5))],
      J.obj [("Embalagem", J.str "Copo Taproom"), ("Volume (L)", J.num (473/1000)), ("Custo Unit (R$)", J.num (1/4))]]),
   ("precos_sku", J.arr [
      J.obj [("SKU", J.str "Lata 473ml"), ("Canal", J.str "Varejo"), ("Preço Unit (R$)", J.num 22)],
      J.obj [("SKU", J.str "Garrafa 600ml"), ("Canal", J.str "Varejo"), ("Preço Unit (R$)", J.num 26)],
      J.obj [("SKU", J.str "Long Neck"), ("Canal", J.str "Varejo"), ("Preço Unit (R$)", J.num 14)],
      J.obj [("SKU", J.str "PET Growler 1,5L"), ("Canal", J.str "Varejo"), ("Preço Unit (R$)", J.num 38)],
      J.obj [("SKU", J.str "Chope (R$/L)"), ("Canal", J.str "Varejo"), ("Preço Unit (R$)", J.num 13)],
      J.obj [("SKU", J.str "Copo Taproom"), ("Canal", J.str "Taproom"), ("Preço Unit (R$)", J.num 20)]]),
   ("mix", J.obj [
      ("Volume Vendido (L/mês)", J.num 2000),
      ("Mix Taproom (%)", J.num 30),
      ("Mix Varejo Chope (%)", J.num 25),
      ("Mix Varejo Embalado (%)", J.num 45),
      ("Distribuição Embalado (%)", J.obj [
        ("Lata 473ml", J.num 45),
        ("Garrafa 600ml", J.num 15),
        ("Long Neck", J.num 25),
        ("PET Growler 1,5L", J.num 15)]),
      ("Receita Base (para custo)", J.str "Pilsen Padrão")]),
   ("premissas", J.obj [
      ("GIP Químicos (R$/L)", J.num (1/4)),
      ("GIP Energia (R$/L)", J.num (7/20)),
      ("GIP Água (R$/L)", J.num (3/20)),
      ("GIP CO2 (R$/L)", J.num (3/20)),
      ("Impostos s/ venda (%)", J.num 10),
      ("Capital de giro (meses)", J.num 6)]),
   ("financiamento", J.obj [
      ("Ativo", J.b false),
      ("Percentual financiado (%)", J.num 60),
      ("Taxa juros a.a. (%)", J.num 18),
      ("Prazo (meses)", J.num 48),
      ("Carência (meses)", J.num 0)])]

/-- `_empty_db()` (lines 388-389). -/
def empty_db : List (String × J) :=
  [("scenarios", J.obj [("Base", J.obj default_scenario_j)]),
   ("selected", J.str "Base")]

/-- The key list scanned by migration 1 (lines 405-419), in source
order. -/
def legacy_keys : List String :=
  ["capex_db", "opex_db", "insumos_db", "receitas_header", "receitas_detalhe",
   "precos_venda", "opex_outros_db", "funcionarios_db", "embalagens_db",
   "precos_sku", "mix", "premissas", "financiamento"]

/-- Migration 1's collection loop (lines 404-421): copy every recognized
key present in the raw document. -/
def collect_legacy (raw : List (String × J)) : List (String × J) :=
  legacy_keys.foldl (fun sc k =>
    match alLookup k raw with
    | some v => alInsert k v sc
    | none => sc) []

/-- The conditional rename `sc[new] = sc.pop(old)` guarded by
`old in sc and new not in sc` (lines 422-425). -/
def rename_field (oldK newK : String) (sc : List (String × J)) :
    List (String × J) :=
  match alLookup oldK sc, alLookup newK sc with
  | some v, none => alInsert newK v (alRemove oldK sc)
  | _, _ => sc

/-- Migration 1's merged "Base" scenario (lines 404-427):
`base = default_scenario(); base.update({k: v for k, v in sc.items() if v
is not None})`. -/
def migrate1_base (raw : List (String × J)) : List (String × J) :=
  let sc0 := collect_legacy raw
  let sc1 := rename_field "opex_db" "opex_outros_db" sc0
  let sc2 := rename_field "precos_venda" "precos_sku" sc1
  sc2.foldl (fun b p =>
    match p.2 with
    | J.null => b
    | v => alInsert p.1 v b) default_scenario_j

/-- Migration 1's returned store (line 428). -/
def migrate1_result (raw : List (String × J)) : List (String × J) :=
  [("scenarios", J.obj [("Base", J.obj (migrate1_base raw))]),
   ("selected", J.str "Base")]

/-- Migration 2 (lines 431-438): a "scenarios" list becomes a mapping;
names come from a truthy `name`/`Nome` field, else "Cenário N"; data is
the element itself unless it carries a truthy `data` field; non-dict
elements are dropped. -/
def migrate2_items (items : List J) : List (String × J) :=
  items.enum.foldl (fun acc p =>
    match p.2 with
    | J.obj it =>
      let fallback := J.str ("Cenário " ++ toString (p.1 + 1))
      let fromNome :=
        match alLookup "Nome" it with
        | some w => if jTruthy w then w else fallback
        | none => fallback
      let nameJ :=
        match alLookup "name" it with
        | some v => if jTruthy v then v else fromNome
        | none => fromNome
      let dataJ :=
        match alLookup "data" it with
        | some v => if jTruthy v then v else J.obj it
        | none => J.obj it
      alInsert (pyStr nameJ) dataJ acc
    | _ => acc) []

/-- The selected-pointer fix (lines 443-445): if the stored pointer is
not a key of the scenarios mapping, reset it to the first key;
`list(keys)[0]` on an empty mapping would raise (modelled as `none`),
but emptiness was already reset to the default store. -/
def fix_selected (d : List (String × J)) : Option (List (String × J)) :=
  match alLookup "scenarios" d with
  | some (J.obj l) =>
    let ok :=
      match alLookup "selected" d with
      | some (J.str s) => (l.map Prod.fst).contains s
      | _ => false
    if ok then some d
    else
      match l with
      | [] => none
      | (k0, _) :: _ => some (alInsert "selected" (J.str k0) d)
  | _ => none

/-- `load_db` (lines 392-447) on an already-parsed document:
`none` input models an unreadable/malformed byte sequence (the
`json.load` try/except) or a missing file; a `none` result models an
uncaught exception escaping `load_db` (the try block only guards the
parse).  A top-level JSON object takes the migration path; a top-level
list or string only crashes when Python's `in` finds a legacy key (the
subsequent `raw.get` has no meaning there); any other top-level value
makes `"scenarios" not in raw` raise `TypeError` at line 403. -/
def load_db (input : Option J) : Option (List (String × J)) :=
  match input with
  | none => some empty_db
  | some (J.obj d) =>
    match alLookup "scenarios" d with
    | none => some (migrate1_result d)
    | some sv =>
      let d1 :=
        match sv with
        | J.arr items => alInsert "scenarios" (J.obj (migrate2_items items)) d
        | _ => d
      let d2 :=
        match alLookup "scenarios" d1 with
        | some (J.obj l) => if l.isEmpty then empty_db else d1
        | _ => empty_db
      fix_selected d2
  | some (J.arr l) =>
    if l.any (fun j => match j with | J.str s => s == "scenarios" | _ => false) then
      none
    else if legacy_keys.any (fun k =>
        l.any (fun j => match j with | J.str s => s == k | _ => false)) then
      none
    else some (migrate1_result [])
  | some (J.str s) =>
    if (s.splitOn "scenarios").length ≥ 2 then none
    else if legacy_keys.any (fun k => (s.splitOn k).length ≥ 2) then none
    else some (migrate1_result [])
  | some _ => none

/-- Merge of one supplied field value over the default scenario: a
`None` (null) or missing value keeps the default (line 427's
filtered `base.update`). -/
def nullDefault (f : String) (base : List (String × J)) : Option J → Option J
  | some J.null => alLookup f base
  | some v => some v
  | none => alLookup f base

/-- Spec-side comparison definition for C8 (transcribing the claim's
words): the value the merged "Base" scenario should hold at field `f` —
the document's recognized field, after the renames `opex_db` →
`opex_outros_db` and `precos_venda` → `precos_sku` exactly as the code
performs them (only when the new-name field is absent from the
document), with null treated as not supplied, defaulting to the default
scenario's value. -/
def mergedFieldSpec (d : List (String × J)) (f : String) : Option J :=
  let eff : Option J :=
    if f = "opex_outros_db" then
      match alLookup "opex_outros_db" d with
      | some v => some v
      | none => alLookup "opex_db" d
    else if f = "precos_sku" then
      match alLookup "precos_sku" d with
      | some v => some v
      | none => alLookup "precos_venda" d
    else if f = "opex_db" then
      match alLookup "opex_outros_db" d with
      | some _ => alLookup "opex_db" d
      | none => none
    else if f = "precos_venda" then
      match alLookup "precos_sku" d with
      | some _ => alLookup "precos_venda" d
      | none => none
    else if f ∈ legacy_keys then alLookup f d
    else none
  nullDefault f default_scenario_j eff

/-! ### Typed scenario model for export/import round-trip (C6)

`scenario_to_excel_bytes` / `import_excel_apply` are modelled at the
structured-record level the spec's §6 defines as the engine contract:
worksheet rows become typed records (the Excel byte encoding is the
external collaborator's concern), `_clean_numeric` / `ensure_cols` /
`fillna` are the identity on fully-typed records, and key/value sheets
become lists of (Chave, Valor) pairs. -/

/-- A scalar cell value of a key/value sheet (number, text or boolean). -/
inductive QV : Type where
  | num (q : ℚ) : QV
  | str (s : String) : QV
  | b (bb : Bool) : QV
  deriving DecidableEq, Repr

/-- A value of the `mix` dict: a scalar, or a nested percent
distribution (dict of scalar cells). -/
inductive MixV : Type where
  | scalar (v : QV) : MixV
  | dist (l : List (String × QV)) : MixV
  deriving DecidableEq, Repr

/-- One row of `capex_db`: {Categoria, Item, Valor, Status}. -/
structure CapexRow where
  categoria : String
  item : String
  valor : ℚ
  status : String
  deriving DecidableEq, Repr

/-- One row of `opex_outros_db`: {Descrição, Valor}. -/
structure OpexRow where
  descricao : String
  valor : ℚ
  deriving DecidableEq, Repr

/-- One row of `funcionarios_db`. -/
structure FuncRow where
  nome : String
  modalidade : String
  salarioBruto : ℚ
  encargos : ℚ
  considerar13 : Bool
  considerarFerias : Bool
  deriving DecidableEq, Repr

/-- One row of `insumos_db`: {Tipo, Nome, Unidade, Custo}. -/
structure InsumoRow where
  tipo : String
  nome : String
  unidade : String
  custo : ℚ
  deriving DecidableEq, Repr

/-- A scenario's field groups (the `sc` dict of the source). -/
structure ScenarioT where
  capex : List CapexRow
  opexOutros : List OpexRow
  funcionarios : List FuncRow
  insumos : List InsumoRow
  receitasHeader : List RecipeHeader
  receitasDetalhe : List RecipeLine
  embalagens : List Emb
  precosSku : List Preco
  mix : List (String × MixV)
  premissas : List (String × QV)
  financiamento : List (String × QV)
  deriving DecidableEq, Repr

/-- The default `mix` (lines 339-351), typed. -/
def default_mix_t : List (String × MixV) :=
  [("Volume Vendido (L/mês)", MixV.scalar (QV.num 2000)),
   ("Mix Taproom (%)", MixV.scalar (QV.num 30)),
   ("Mix Varejo Chope (%)", MixV.scalar (QV.num 25)),
   ("Mix Varejo Embalado (%)", MixV.scalar (QV.num 45)),
   ("Distribuição Embalado (%)", MixV.dist
     [("Lata 473ml", QV.num 45), ("Garrafa 600ml", QV.num 15),
      ("Long Neck", QV.num 25), ("PET Growler 1,5L", QV.num 15)]),
   ("Receita Base (para custo)", MixV.scalar (QV.str "Pilsen Padrão"))]

/-- The default `premissas` (lines 353-360), typed. -/
def default_premissas_t : List (String × QV) :=
  [("GIP Químicos (R$/L)", QV.num (1/4)),
   ("GIP Energia (R$/L)", QV.num (7/20)),
   ("GIP Água (R$/L)", QV.num (3/20)),
   ("GIP CO2 (R$/L)", QV.num (3/20)),
   ("Impostos s/ venda (%)", QV.num 10),
   ("Capital de giro (meses)", QV.num 6)]

/-- The default `financiamento` (lines 362-368), typed. -/
def default_financiamento_t : List (String × QV) :=
  [("Ativo", QV.b false),
   ("Percentual financiado (%)", QV.num 60),
   ("Taxa juros a.a. (%)", QV.num 18),
   ("Prazo (meses)", QV.num 48),
   ("Carência (meses)", QV.num 0)]

/-- Split a key at its first "::" occurrence — Python's
`"::" in k` / `k.split("::", 1)` (lines 816-817), implemented
structurally over the character list. -/
def splitOnceAux (sep : List Char) : List Char → Option (List Char × List Char)
  | [] => none
  | c :: rest =>
    if sep.isPrefixOf (c :: rest) then some ([], (c :: rest).drop sep.length)
    else
      match splitOnceAux sep rest with
      | some pr => some (c :: pr.1, pr.2)
      | none => none

def splitComposite (k : String) : Option (String × String) :=
  match splitOnceAux "::".toList k.toList with
  | some pr => some (String.mk pr.1, String.mk pr.2)
  | none => none

/-- The mix flattening of `scenario_to_excel_bytes` (lines 781-787):
scalar entries become one row, nested distributions become
"outer::inner" rows. -/
def flatten_mix (mix : List (String × MixV)) : List (String × QV) :=
  mix.flatMap (fun p =>
    match p.2 with
    | MixV.scalar v => [(p.1, v)]
    | MixV.dist l => l.map (fun q => (p.1 ++ "::" ++ q.1, q.2)))

/-- One iteration of `kv_sheet_to_dict`'s row loop (lines 813-821):
a composite key "base::sub" goes through `out.setdefault(base, {})`
followed by `out[base][sub] = v`; indexing `[sub]` into an existing
non-dict value raises `TypeError` (modelled `none`). -/
def kv_step (out : List (String × MixV)) (row : String × QV) :
    Option (List (String × MixV)) :=
  match splitComposite row.1 with
  | none => some (alInsert row.1 (MixV.scalar row.2) out)
  | some bs =>
    match alLookup bs.1 out with
    | none => some (alInsert bs.1 (MixV.dist [(bs.2, row.2)]) out)
    | some (MixV.dist l) =>
        some (alInsert bs.1 (MixV.dist (alInsert bs.2 row.2 l)) out)
    | some (MixV.scalar _) => none

def kv_fold (out : List (String × MixV)) :
    List (String × QV) → Option (List (String × MixV))
  | [] => some out
  | row :: rest =>
    match kv_step out row with
    | none => none
    | some out' => kv_fold out' rest

/-- `kv_sheet_to_dict` (lines 809-822) on the typed rows (an empty or
column-less sheet is the empty row list). -/
def kv_sheet_to_dict (rows : List (String × QV)) :
    Option (List (String × MixV)) :=
  kv_fold [] rows

/-- Python `float(v)` on a cell value (line 852): numbers and booleans
coerce; a non-numeric string raises (numeric-string parsing is outside
the typed cell model). -/
def toFloat (v : QV) : Option ℚ :=
  match v with
  | QV.num q => some q
  | QV.b bb => some (if bb then 1 else 0)
  | QV.str _ => none

/-- The packaged-distribution float coercion of `import_excel_apply`
(lines 851-852). -/
def coerce_dist (mix : List (String × MixV)) :
    Option (List (String × MixV)) :=
  match alLookup "Distribuição Embalado (%)" mix with
  | some (MixV.dist l) =>
    match l.mapM (fun q => (toFloat q.2).map (fun r => (q.1, QV.num r))) with
    | none => none
    | some l' => some (alInsert "Distribuição Embalado (%)" (MixV.dist l') mix)
  | _ => some mix

/-- Line 529 / line 888: `Custo_Total = Qtd * Custo_Unit` (derived line
totals are always recomputed). -/
def recompute_line (l : RecipeLine) : RecipeLine :=
  { l with custoTotal := l.qtd * l.custoUnit }

/-- The field map `serializeScenario` produces and the bulk import
consumes: one tabular record list per field group plus the three
key/value sheets. -/
structure FieldMap where
  capex : List CapexRow
  opexOutros : List OpexRow
  funcionarios : List FuncRow
  insumos : List InsumoRow
  receitasHeader : List RecipeHeader
  receitasDetalhe : List RecipeLine
  embalagens : List Emb
  precosSku : List Preco
  mixKV : List (String × QV)
  premKV : List (String × QV)
  finKV : List (String × QV)
  deriving DecidableEq, Repr

/-- `scenario_to_excel_bytes` (lines 767-796) at the record level: the
tabular groups are exported as their rows (`scenario_dfs`'s cleaning is
the identity on typed records, and its line 529 recomputes every
`Custo_Total`); the falsy-dict fallbacks of lines 538-540 are the
`isEmpty` branches; `mix` is flattened with "::" composite keys. -/
def serializeScenario (sc : ScenarioT) : FieldMap :=
  { capex := sc.capex
    opexOutros := sc.opexOutros
    funcionarios := sc.funcionarios
    insumos := sc.insumos
    receitasHeader := sc.receitasHeader
    receitasDetalhe := sc.receitasDetalhe.map recompute_line
    embalagens := sc.embalagens
    precosSku := sc.precosSku
    mixKV := flatten_mix (if sc.mix.isEmpty then default_mix_t else sc.mix)
    premKV := if sc.premissas.isEmpty then default_premissas_t else sc.premissas
    finKV := if sc.financiamento.isEmpty then default_financiamento_t else sc.financiamento }

/-- Premises/financing records are flat key/value groups (data model
§3); an imported key/value sheet that nests them (composite keys) falls
outside the typed scenario record. -/
def asFlatKV (l : List (String × MixV)) : Option (List (String × QV)) :=
  l.mapM (fun p =>
    match p.2 with
    | MixV.scalar v => some (p.1, v)
    | MixV.dist _ => none)

/-- `import_excel_apply` (lines 825-892) at the record level: unflatten
the key/value sheets (`kv_sheet_to_dict`), apply the `or` fallbacks to
the current scenario and then the defaults, float-coerce the
packaged-distribution values, fall back to the current scenario for
every empty tabular sheet (`ensure_cols` is the identity on typed
records), and recompute every recipe-line total. -/
def importApply (sc : ScenarioT) (fm : FieldMap) : Option ScenarioT :=
  match kv_sheet_to_dict fm.mixKV, kv_sheet_to_dict fm.premKV,
      kv_sheet_to_dict fm.finKV with
  | some mixRaw, some premRaw, some finRaw =>
    let mix0 := if mixRaw.isEmpty then
        (if sc.mix.isEmpty then default_mix_t else sc.mix) else mixRaw
    let premSel : Option (List (String × QV)) :=
      if premRaw.isEmpty then
        some (if sc.premissas.isEmpty then default_premissas_t else sc.premissas)
      else asFlatKV premRaw
    let finSel : Option (List (String × QV)) :=
      if finRaw.isEmpty then
        some (if sc.financiamento.isEmpty then default_financiamento_t
          else sc.financiamento)
      else asFlatKV finRaw
    match coerce_dist mix0, premSel, finSel with
    | some mix1, some prem1, some fin1 =>
      some { capex := if fm.capex.isEmpty then sc.capex else fm.capex
             opexOutros := if fm.opexOutros.isEmpty then sc.opexOutros else fm.opexOutros
             funcionarios := if fm.funcionarios.isEmpty then sc.funcionarios else fm.funcionarios
             insumos := if fm.insumos.isEmpty then sc.insumos else fm.insumos
             receitasHeader := if fm.receitasHeader.isEmpty then sc.receitasHeader else fm.receitasHeader
             receitasDetalhe := ((if fm.receitasDetalhe.isEmpty then sc.receitasDetalhe
               else fm.receitasDetalhe).map recompute_line)
             embalagens := if fm.embalagens.isEmpty then sc.embalagens else fm.embalagens
             precosSku := if fm.precosSku.isEmpty then sc.precosSku else fm.precosSku
             mix := mix1
             premissas := prem1
             financiamento := fin1 }
    | _, _, _ => none
  | _, _, _ => none

-- ===== end of definitions / start of theorems =====

/-! ### Helper lemmas -/

theorem list_sum_map_mul_const (l : List ℚ) (c : ℚ) :
    (l.map (fun v => v * c)).sum = l.sum * c := by
  induction l with
  | nil => simp
  | cons x t ih => simp [ih]; ring

/-! ### C1: normalize_dist -/

/-- C1.  `normalize_dist` clamps every value to ≥ 0 (missing treated
as 0), returns the clamped map unchanged when the clamped total is ≤ 0
(in particular an all-zero input comes back as all zeros with its keys
unchanged), and otherwise rescales each value to value/total × 100, so
that the output sums to 100 and each output value stands to the clamped
input value in the fixed ratio 100/total. -/
theorem C1_normalize_dist (d : List (String × Option ℚ)) :
    ((normalize_dist d).map Prod.fst = d.map Prod.fst) ∧
    (∀ i : ℕ, ∀ p : String × Option ℚ, d[i]? = some p →
        (clamp_dist d)[i]? = some (p.1, max 0 (p.2.getD 0))) ∧
    (((clamp_dist d).map (·.2)).sum ≤ 0 → normalize_dist d = clamp_dist d) ∧
    (0 < ((clamp_dist d).map (·.2)).sum →
        ((normalize_dist d).map (·.2)).sum = 100) ∧
    (0 < ((clamp_dist d).map (·.2)).sum →
        ∀ i : ℕ, ∀ p q : String × ℚ,
          (normalize_dist d)[i]? = some p → (clamp_dist d)[i]? = some q →
          p.1 = q.1 ∧ p.2 * ((clamp_dist d).map (·.2)).sum = q.2 * 100) ∧
    ((∀ p ∈ d, p.2.getD 0 = 0) →
        normalize_dist d = d.map (fun p => (p.1, 0))) := by
  refine ⟨?_, ?_, ?_, ?_, ?_, ?_⟩
  · unfold normalize_dist
    by_cases hs : ((clamp_dist d).map (·.2)).sum ≤ 0
    · simp only [if_pos hs]
      simp [clamp_dist, List.map_map, Function.comp]
    · simp only [if_neg hs]
      simp [clamp_dist, List.map_map, Function.comp]
  · intro i p hp
    simp [clamp_dist, List.getElem?_map, hp]
  · intro hs
    simp only [normalize_dist]
    rw [if_pos hs]
  · intro hs
    have hne : ((clamp_dist d).map (·.2)).sum ≠ 0 := ne_of_gt hs
    unfold normalize_dist
    simp only [if_neg (not_le.mpr hs)]
    rw [List.map_map]
    have hmap : ((clamp_dist d).map ((fun x => x.2) ∘
        fun p => (p.1, p.2 / ((clamp_dist d).map (·.2)).sum * 100))) =
        ((clamp_dist d).map (·.2)).map
          (fun v => v * (100 / ((clamp_dist d).map (·.2)).sum)) := by
      rw [List.map_map]
      refine List.map_congr_left ?_
      intro p _
      simp only [Function.comp]
      field_simp
    rw [hmap, list_sum_map_mul_const]
    field_simp
  · intro hs i p q hp hq
    have hne : ((clamp_dist d).map (·.2)).sum ≠ 0 := ne_of_gt hs
    unfold normalize_dist at hp
    simp only [if_neg (not_le.mpr hs)] at hp
    rw [List.getElem?_map, hq] at hp
    simp only [Option.map_some'] at hp
    cases hp
    constructor
    · rfl
    · field_simp
  · intro hz
    have hcl : clamp_dist d = d.map (fun p => (p.1, 0)) := by
      simp only [clamp_dist]
      refine List.map_congr_left ?_
      intro p hp
      rw [hz p hp]
      simp
    have hs : ((clamp_dist d).map (·.2)).sum ≤ 0 := by
      rw [hcl, List.map_map]
      have h0 : ((fun x : String × ℚ => x.2) ∘
          fun p : String × Option ℚ => (p.1, (0:ℚ))) = fun _ => 0 := rfl
      rw [h0]
      simp
    unfold normalize_dist
    simp only [if_pos hs]
    rw [hcl]

/-- Witness for C1 at a concrete distribution with a missing value and a
negative value: the normalized output sums to 100. -/
theorem C1_normalize_dist_witness :
    ((normalize_dist [("a", some 30), ("b", none), ("c", some (-5)), ("d", some 90)]).map (·.2)).sum = 100 :=
  (C1_normalize_dist _).2.2.2.1 (by norm_num [clamp_dist])

/-! ### C2: recipe_cost_per_liter -/

theorem recipe_cost_found (h0 : RecipeHeader) (t : List RecipeHeader)
    (rd : List RecipeLine) (prem : Prem) (n : String) (hdr : RecipeHeader)
    (hne : n ≠ "") (hmem : n ∈ (h0 :: t).map (·.nome))
    (hfind : (h0 :: t).find? (fun r => r.nome = n) = some hdr) :
    recipe_cost_per_liter (h0 :: t) rd prem (some n) =
      if rd.filter (fun l => l.receitaId = hdr.id) = [] ∨ hdr.vol ≤ 0 then
        calc_gip_total prem
      else
        ((rd.filter (fun l => l.receitaId = hdr.id)).map (·.custoTotal)).sum / hdr.vol
          + calc_gip_total prem := by
  have hcond : ¬(n = "" ∨ n ∉ (h0 :: t).map (·.nome)) := by
    push_neg
    exact ⟨hne, hmem⟩
  simp only [recipe_cost_per_liter]
  simp only [if_neg hcond]
  rw [hfind]
  rfl

theorem recipe_cost_fallback (h0 : RecipeHeader) (t : List RecipeHeader)
    (rd : List RecipeLine) (prem : Prem) (nm : Option String)
    (hfb : nm = none ∨ ∃ n, nm = some n ∧ (n = "" ∨ n ∉ (h0 :: t).map (·.nome))) :
    recipe_cost_per_liter (h0 :: t) rd prem nm =
      recipe_cost_per_liter (h0 :: t) rd prem (some h0.nome) := by
  simp only [recipe_cost_per_liter]
  rcases hfb with h | ⟨n, rfl, hn⟩
  · subst h
    simp only [ite_self]
  · simp only [ite_self, if_pos hn]

theorem recipe_cost_perm (rh : List RecipeHeader)
    (rd rd' : List RecipeLine) (prem : Prem) (nm : Option String)
    (hperm : rd.Perm rd') :
    recipe_cost_per_liter rh rd prem nm = recipe_cost_per_liter rh rd' prem nm := by
  cases rh with
  | nil => rfl
  | cons h0 t =>
    simp only [recipe_cost_per_liter]
    set row := ((h0 :: t).find? (fun r => r.nome =
      match nm with
      | none => h0.nome
      | some n => if n = "" ∨ n ∉ (h0 :: t).map (·.nome) then h0.nome else n)).getD h0 with hrow
    have hp := hperm.filter (fun l => decide (l.receitaId = row.id))
    have hiff : (rd.filter (fun l => l.receitaId = row.id) = []) ↔
        (rd'.filter (fun l => l.receitaId = row.id) = []) := by
      constructor
      · intro h
        rw [h] at hp
        exact hp.symm.eq_nil
      · intro h
        rw [h] at hp
        exact hp.eq_nil
    have hsum : ((rd.filter (fun l => l.receitaId = row.id)).map (·.custoTotal)).sum =
        ((rd'.filter (fun l => l.receitaId = row.id)).map (·.custoTotal)).sum :=
      (hp.map (·.custoTotal)).sum_eq
    by_cases hA : rd.filter (fun l => l.receitaId = row.id) = []
    · rw [if_pos (Or.inl hA), if_pos (Or.inl (hiff.mp hA))]
    · by_cases hB : row.vol ≤ 0
      · rw [if_pos (Or.inr hB), if_pos (Or.inr hB)]
      · rw [if_neg ?_, if_neg ?_, hsum]
        · intro hor
          rcases hor with h | h
          · exact hA (hiff.mpr h)
          · exact hB h
        · intro hor
          rcases hor with h | h
          · exact hA h
          · exact hB h

/-- C2.  `recipe_cost_per_liter` returns the selected recipe's line-total
sum divided by its batch volume plus the indirect cost per liter (the sum
of the four premise components); with no headers it returns just the
indirect cost; an absent (or empty) requested name falls back to the
first header in storage order; a batch volume ≤ 0 or an empty line set
yields just the indirect cost; and the result is invariant under any
permutation of the recipe-line rows. -/
theorem C2_recipe_cost_per_liter
    (rdAny : List RecipeLine) (prem : Prem) (nameAny : Option String)
    (h0 : RecipeHeader) (t : List RecipeHeader)
    (n : String) (hdr : RecipeHeader) (rd rd' : List RecipeLine)
    (hperm : rd.Perm rd')
    (hfind : (h0 :: t).find? (fun r => r.nome = n) = some hdr)
    (hmem : n ∈ (h0 :: t).map (·.nome)) (hne : n ≠ "") :
    (calc_gip_total prem =
      prem.gipQuimicos + prem.gipEnergia + prem.gipAgua + prem.gipCO2) ∧
    (recipe_cost_per_liter [] rdAny prem nameAny = calc_gip_total prem) ∧
    (∀ m : String, m ∉ (h0 :: t).map (·.nome) →
      recipe_cost_per_liter (h0 :: t) rdAny prem (some m) =
        recipe_cost_per_liter (h0 :: t) rdAny prem (some h0.nome)) ∧
    (recipe_cost_per_liter (h0 :: t) rdAny prem none =
      recipe_cost_per_liter (h0 :: t) rdAny prem (some h0.nome)) ∧
    (0 < hdr.vol → rd.filter (fun l => l.receitaId = hdr.id) ≠ [] →
      recipe_cost_per_liter (h0 :: t) rd prem (some n) =
        ((rd.filter (fun l => l.receitaId = hdr.id)).map (·.custoTotal)).sum / hdr.vol
          + calc_gip_total prem) ∧
    (hdr.vol ≤ 0 ∨ rd.filter (fun l => l.receitaId = hdr.id) = [] →
      recipe_cost_per_liter (h0 :: t) rd prem (some n) = calc_gip_total prem) ∧
    (recipe_cost_per_liter (h0 :: t) rd prem nameAny =
      recipe_cost_per_liter (h0 :: t) rd' prem nameAny) := by
  refine ⟨rfl, rfl, ?_, ?_, ?_, ?_, ?_⟩
  · intro m hm
    exact recipe_cost_fallback h0 t rdAny prem (some m) (Or.inr ⟨m, rfl, Or.inr hm⟩)
  · exact recipe_cost_fallback h0 t rdAny prem none (Or.inl rfl)
  · intro hvol hdet
    rw [recipe_cost_found h0 t rd prem n hdr hne hmem hfind,
      if_neg (by push_neg; exact ⟨hdet, hvol⟩)]
  · intro hor
    rw [recipe_cost_found h0 t rd prem n hdr hne hmem hfind, if_pos hor.symm]
  · exact recipe_cost_perm (h0 :: t) rd rd' prem nameAny hperm

/-- Witness for C2: one recipe of 500 L with two lines totaling 2000 and
indirect components 0.25 + 0.35 + 0.15 + 0.15 gives exactly
2000/500 + 0.90 = 4.90 per liter, for both orderings of the lines. -/
theorem C2_recipe_cost_per_liter_witness :
    recipe_cost_per_liter [⟨1, "IPA", 500⟩]
        [⟨1, "Malte", 100, 15, 1500⟩, ⟨1, "Lúpulo", 1, 500, 500⟩]
        ⟨1/4, 7/20, 3/20, 3/20, 10, 6⟩ (some "IPA") = 49/10 ∧
    recipe_cost_per_liter [⟨1, "IPA", 500⟩]
        [⟨1, "Malte", 100, 15, 1500⟩, ⟨1, "Lúpulo", 1, 500, 500⟩]
        ⟨1/4, 7/20, 3/20, 3/20, 10, 6⟩ (some "IPA") =
      recipe_cost_per_liter [⟨1, "IPA", 500⟩]
        [⟨1, "Lúpulo", 1, 500, 500⟩, ⟨1, "Malte", 100, 15, 1500⟩]
        ⟨1/4, 7/20, 3/20, 3/20, 10, 6⟩ (some "IPA") := by
  have h := C2_recipe_cost_per_liter
    [⟨1, "Malte", 100, 15, 1500⟩, ⟨1, "Lúpulo", 1, 500, 500⟩]
    ⟨1/4, 7/20, 3/20, 3/20, 10, 6⟩ (some "IPA")
    ⟨1, "IPA", 500⟩ [] "IPA" ⟨1, "IPA", 500⟩
    [⟨1, "Malte", 100, 15, 1500⟩, ⟨1, "Lúpulo", 1, 500, 500⟩]
    [⟨1, "Lúpulo", 1, 500, 500⟩, ⟨1, "Malte", 100, 15, 1500⟩]
    (List.Perm.swap _ _ _) (by simp) (by simp) (by simp)
  constructor
  · rw [h.2.2.2.2.1 (by norm_num) (by simp [List.filter])]
    simp [List.filter, calc_gip_total]
    norm_num
  · exact h.2.2.2.2.2.2

/-! ### C4: build_payback_series -/

theorem payback_go_frozen (c : ℚ) (x : ℕ) : ∀ (rem m : ℕ) (acc : ℚ),
    (payback_go c rem m acc (some x)).2 = some x := by
  intro rem
  induction rem with
  | zero => intro m acc; rfl
  | succ r ih =>
    intro m acc
    simp only [payback_go]
    simp only [Option.some_ne_none, and_false, if_false]
    exact ih (m + 1) (acc + c)

theorem payback_go_length (c : ℚ) : ∀ (rem m : ℕ) (acc : ℚ) (p : Option ℕ),
    (payback_go c rem m acc p).1.length = rem := by
  intro rem
  induction rem with
  | zero => intro m acc p; rfl
  | succ r ih =>
    intro m acc p
    simp only [payback_go, List.length_cons]
    rw [ih]

theorem payback_go_fst (c : ℚ) : ∀ (rem m : ℕ) (acc : ℚ) (p : Option ℕ) (j : ℕ),
    (payback_go c rem m acc p).1[j]? =
      if j < rem then some (acc + ((j : ℚ) + 1) * c) else none := by
  intro rem
  induction rem with
  | zero => intro m acc p j; simp [payback_go]
  | succ r ih =>
    intro m acc p j
    cases j with
    | zero =>
      simp only [payback_go, List.getElem?_cons_zero]
      rw [if_pos (Nat.succ_pos r)]
      norm_num
    | succ j' =>
      simp only [payback_go, List.getElem?_cons_succ]
      rw [ih]
      by_cases hj : j' < r
      · rw [if_pos hj, if_pos (Nat.succ_lt_succ hj)]
        congr 1
        push_cast
        ring
      · rw [if_neg hj, if_neg (fun hh => hj (Nat.lt_of_succ_lt_succ hh))]

theorem payback_go_none_iff (c : ℚ) : ∀ (rem m : ℕ) (acc : ℚ),
    ((payback_go c rem m acc none).2 = none ↔
      ∀ k, k < rem → acc + ((k : ℚ) + 1) * c < 0) := by
  intro rem
  induction rem with
  | zero =>
    intro m acc
    simp [payback_go]
  | succ r ih =>
    intro m acc
    simp only [payback_go, and_true]
    by_cases h0 : acc + c ≥ 0
    · rw [if_pos h0]
      rw [payback_go_frozen]
      constructor
      · intro h; exact absurd h (Option.some_ne_none m)
      · intro hall
        exfalso
        have := hall 0 (Nat.succ_pos r)
        push_cast at this
        linarith
    · rw [if_neg h0]
      rw [ih]
      constructor
      · intro hall k hk
        cases k with
        | zero =>
          push_cast
          linarith [not_le.mp h0]
        | succ k' =>
          have := hall k' (Nat.lt_of_succ_lt_succ hk)
          push_cast at this ⊢
          linarith
      · intro hall k hk
        have := hall (k + 1) (Nat.succ_lt_succ hk)
        push_cast at this ⊢
        linarith

theorem payback_go_some_iff (c : ℚ) : ∀ (rem m : ℕ) (acc : ℚ) (j : ℕ),
    ((payback_go c rem m acc none).2 = some j ↔
      ∃ k, k < rem ∧ j = m + k ∧ 0 ≤ acc + ((k : ℚ) + 1) * c ∧
        ∀ i, i < k → acc + ((i : ℚ) + 1) * c < 0) := by
  intro rem
  induction rem with
  | zero =>
    intro m acc j
    simp [payback_go]
  | succ r ih =>
    intro m acc j
    simp only [payback_go, and_true]
    by_cases h0 : acc + c ≥ 0
    · rw [if_pos h0]
      rw [payback_go_frozen]
      constructor
      · intro h
        have hj : j = m := (Option.some_inj.mp h).symm
        refine ⟨0, Nat.succ_pos r, by omega, by push_cast; linarith, ?_⟩
        intro i hi
        exact absurd hi (Nat.not_lt_zero i)
      · rintro ⟨k, hk, rfl, hpos, hprev⟩
        cases k with
        | zero => simp
        | succ k' =>
          exfalso
          have := hprev 0 (Nat.succ_pos k')
          push_cast at this
          linarith
    · rw [if_neg h0]
      rw [ih]
      constructor
      · rintro ⟨k, hk, rfl, hpos, hprev⟩
        refine ⟨k + 1, Nat.succ_lt_succ hk, by omega, ?_, ?_⟩
        · push_cast at hpos ⊢; linarith
        · intro i hi
          cases i with
          | zero => push_cast; linarith [not_le.mp h0]
          | succ i' =>
            have := hprev i' (Nat.lt_of_succ_lt_succ hi)
            push_cast at this ⊢
            linarith
      · rintro ⟨k, hk, rfl, hpos, hprev⟩
        cases k with
        | zero =>
          exfalso
          push_cast at hpos
          linarith [not_le.mp h0]
        | succ k' =>
          refine ⟨k', Nat.lt_of_succ_lt_succ hk, by omega, ?_, ?_⟩
          · push_cast at hpos ⊢; linarith
          · intro i hi
            have := hprev (i + 1) (Nat.succ_lt_succ hi)
            push_cast at this ⊢
            linarith

/-- C4 (amended).  `build_payback_series` produces a series of
`months + 1` balances with month-m balance `-invest + m * cash`; the
reported payback month is the first index m ≥ 1 (month 0 is never
examined by the loop) whose balance is ≥ 0, and none is reported when no
such month ≥ 1 exists within the horizon. -/
theorem C4_build_payback_series (invest c : ℚ) (months m j : ℕ)
    (hm : m ≤ months) :
    ((build_payback_series invest c months).1.length = months + 1) ∧
    ((build_payback_series invest c months).1[m]? =
      some (-invest + (m : ℚ) * c)) ∧
    ((build_payback_series invest c months).2 = some j ↔
      1 ≤ j ∧ j ≤ months ∧ 0 ≤ -invest + (j : ℚ) * c ∧
        ∀ k, 1 ≤ k → k < j → -invest + (k : ℚ) * c < 0) ∧
    ((build_payback_series invest c months).2 = none ↔
      ∀ k, 1 ≤ k → k ≤ months → -invest + (k : ℚ) * c < 0) := by
  refine ⟨?_, ?_, ?_, ?_⟩
  · simp only [build_payback_series, List.length_cons]
    rw [payback_go_length]
  · cases m with
    | zero =>
      simp only [build_payback_series, List.getElem?_cons_zero]
      norm_num
    | succ m' =>
      simp only [build_payback_series, List.getElem?_cons_succ]
      rw [payback_go_fst, if_pos (by omega : m' < months)]
      congr 1
      push_cast
      ring
  · simp only [build_payback_series]
    rw [payback_go_some_iff]
    constructor
    · rintro ⟨k, hk, rfl, hpos, hprev⟩
      refine ⟨by omega, by omega, ?_, ?_⟩
      · push_cast at hpos ⊢
        linarith
      · intro i hi1 hi2
        have := hprev (i - 1) (by omega)
        have hcast : ((i - 1 : ℕ) : ℚ) + 1 = (i : ℚ) := by
          have : (1:ℕ) ≤ i := hi1
          push_cast [Nat.cast_sub this]
          ring
        rw [hcast] at this
        linarith
    · rintro ⟨hj1, hj2, hpos, hprev⟩
      refine ⟨j - 1, by omega, by omega, ?_, ?_⟩
      · have hcast : ((j - 1 : ℕ) : ℚ) + 1 = (j : ℚ) := by
          push_cast [Nat.cast_sub hj1]
          ring
        rw [hcast]
        linarith
      · intro i hi
        have := hprev (i + 1) (by omega) (by omega)
        push_cast at this ⊢
        linarith
  · simp only [build_payback_series]
    rw [payback_go_none_iff]
    constructor
    · intro hall k hk1 hk2
      have := hall (k - 1) (by omega)
      have hcast : ((k - 1 : ℕ) : ℚ) + 1 = (k : ℚ) := by
        push_cast [Nat.cast_sub hk1]
        ring
      rw [hcast] at this
      linarith
    · intro hall k hk
      have := hall (k + 1) (by omega) (by omega)
      push_cast at this ⊢
      linarith

/-- Witness for C4 at invest = 10000, cash = 2000, horizon 84: the
month-5 balance is 0 and the reported payback month is 5; and at
invest = 10000, cash = 0 the month-5 balance stays -10000 and no payback
is reported. -/
theorem C4_build_payback_series_witness :
    (build_payback_series 10000 2000 84).2 = some 5 ∧
    (build_payback_series 10000 2000 84).1[5]? = some (0 : ℚ) ∧
    (build_payback_series 10000 0 84).1[5]? = some ((-10000 : ℚ)) ∧
    (build_payback_series 10000 0 84).2 = none := by
  have h1 := C4_build_payback_series 10000 2000 84 5 5 (by norm_num)
  have h2 := C4_build_payback_series 10000 0 84 5 5 (by norm_num)
  refine ⟨?_, ?_, ?_, ?_⟩
  · refine h1.2.2.1.mpr ⟨by norm_num, by norm_num, by norm_num, ?_⟩
    intro k hk1 hk5
    interval_cases k <;> norm_num
  · rw [h1.2.1]; norm_num
  · rw [h2.2.1]; norm_num
  · refine h2.2.2.2.mpr ?_
    intro k hk1 hk84
    norm_num

/-- C4 counterexample to the claim as stated: with invest = 0 and
cash = 0 the month-0 balance is already ≥ 0, so "the first month index at
which the cumulative balance is ≥ 0" is 0, but the code reports payback
month 1 (its loop starts at month 1). -/
theorem C4_counterexample :
    (build_payback_series 0 0 84).2 = some 1 ∧
    paybackMonthSpecC4 0 0 84 = some 0 ∧
    (build_payback_series 0 0 84).2 ≠ paybackMonthSpecC4 0 0 84 := by
  have hcode : (build_payback_series 0 0 84).2 = some 1 := by
    simp only [build_payback_series]
    rw [payback_go_some_iff]
    refine ⟨0, by norm_num, by norm_num, by norm_num, ?_⟩
    intro i hi
    exact absurd hi (Nat.not_lt_zero i)
  have hspec : paybackMonthSpecC4 0 0 84 = some 0 := by
    simp only [paybackMonthSpecC4, List.range_succ_eq_map]
    rw [List.find?_cons_of_pos]
    norm_num
  refine ⟨hcode, hspec, ?_⟩
  rw [hcode, hspec]
  simp

/-! ### C5: financed payback deductions -/

theorem financed_sum_shift (L V I : ℚ) (P C : ℕ) (n m : ℕ) :
    (L - financed_pay V I P C m) +
      ((List.range n).map (fun i => L - financed_pay V I P C (m + 1 + i))).sum =
    ((List.range (n + 1)).map (fun i => L - financed_pay V I P C (m + i))).sum := by
  rw [List.range_succ_eq_map]
  simp only [List.map_cons, List.sum_cons, List.map_map]
  congr 1
  refine congrArg List.sum (List.map_congr_left ?_)
  intro i _
  simp only [Function.comp_apply]
  have h1i : m + 1 + i = m + i.succ := by omega
  rw [h1i]

theorem financed_go_fst (L V I : ℚ) (P C : ℕ) :
    ∀ (rem m : ℕ) (acc : ℚ) (p : Option ℕ) (j : ℕ),
    (financed_payback_go L V I P C rem m acc p).1[j]? =
      if j < rem then
        some (acc + ((List.range (j + 1)).map
          (fun i => L - financed_pay V I P C (m + i))).sum)
      else none := by
  intro rem
  induction rem with
  | zero => intro m acc p j; simp [financed_payback_go]
  | succ r ih =>
    intro m acc p j
    cases j with
    | zero =>
      simp only [financed_payback_go, List.getElem?_cons_zero]
      rw [if_pos (Nat.succ_pos r)]
      simp [List.range_succ]
    | succ j' =>
      simp only [financed_payback_go, List.getElem?_cons_succ]
      rw [ih]
      by_cases hj : j' < r
      · rw [if_pos hj, if_pos (Nat.succ_lt_succ hj)]
        congr 1
        rw [← financed_sum_shift L V I P C (j' + 1) m]
        ring
      · rw [if_neg hj, if_neg (fun hh => hj (Nat.lt_of_succ_lt_succ hh))]

/-- C5 (amended).  In the financed payback series, the amount deducted
from the operating cash in month m is the interest-only payment
`financedPrincipal * monthlyRate` for 1 ≤ m ≤ graceMonths, and for
m > graceMonths it is the fixed Price installment computed over
`max 1 (termMonths - graceMonths)` periods (never over a non-positive
period count); consecutive balances of the series differ by exactly
`operatingCash - deduction`. -/
theorem C5_financed_payback_deduction (V I L invest : ℚ) (P C months m k : ℕ)
    (_hm1 : 1 ≤ m) (hk : k < months) :
    (m ≤ C → financed_pay V I P C m = V * I) ∧
    (C < m → financed_pay V I P C m =
      pmt_price V I (max 1 ((P : ℤ) - (C : ℤ)))) ∧
    (∃ b, (build_financed_payback_series invest L V I P C months).1[k]? = some b ∧
      (build_financed_payback_series invest L V I P C months).1[k + 1]? =
        some (b + (L - financed_pay V I P C (k + 1)))) := by
  refine ⟨?_, ?_, ?_⟩
  · intro hmc
    simp [financed_pay, if_pos hmc]
  · intro hcm
    simp [financed_pay, if_neg (not_le.mpr hcm), financed_installment]
  · cases k with
    | zero =>
      refine ⟨-invest, ?_, ?_⟩
      · simp [build_financed_payback_series]
      · simp only [build_financed_payback_series, List.getElem?_cons_succ]
        rw [financed_go_fst, if_pos hk]
        simp [List.range_succ]
    | succ j =>
      refine ⟨-invest + ((List.range (j + 1)).map
          (fun i => L - financed_pay V I P C (1 + i))).sum, ?_, ?_⟩
      · simp only [build_financed_payback_series, List.getElem?_cons_succ]
        rw [financed_go_fst, if_pos (by omega : j < months)]
      · simp only [build_financed_payback_series, List.getElem?_cons_succ]
        rw [financed_go_fst, if_pos hk]
        congr 1
        rw [List.range_succ, List.map_append, List.sum_append]
        simp only [List.map_cons, List.map_nil, List.sum_cons, List.sum_nil]
        have h12 : 1 + (j + 1) = j + 1 + 1 := by omega
        rw [h12]
        ring

/-- Witness for C5 at principal 6000, monthly rate 0.015, term 12,
grace 2: months 1 and 2 deduct the interest-only 90, month 3 deducts the
fixed Price installment over 10 periods, and the series balances step by
operating cash minus that deduction. -/
theorem C5_financed_payback_deduction_witness :
    financed_pay 6000 (3/200) 12 2 1 = 90 ∧
    financed_pay 6000 (3/200) 12 2 2 = 90 ∧
    financed_pay 6000 (3/200) 12 2 3 = pmt_price 6000 (3/200) 10 ∧
    (∃ b, (build_financed_payback_series 6000 1000 6000 (3/200) 12 2 84).1[2]? = some b ∧
      (build_financed_payback_series 6000 1000 6000 (3/200) 12 2 84).1[3]? =
        some (b + (1000 - financed_pay 6000 (3/200) 12 2 3))) := by
  have h1 := C5_financed_payback_deduction 6000 (3/200) 1000 6000 12 2 84 1 2
    (by norm_num) (by norm_num)
  have h2 := C5_financed_payback_deduction 6000 (3/200) 1000 6000 12 2 84 2 2
    (by norm_num) (by norm_num)
  have h3 := C5_financed_payback_deduction 6000 (3/200) 1000 6000 12 2 84 3 2
    (by norm_num) (by norm_num)
  refine ⟨?_, ?_, ?_, ?_⟩
  · rw [h1.1 (by norm_num)]; norm_num
  · rw [h2.1 (by norm_num)]; norm_num
  · rw [h3.2.1 (by norm_num)]
    congr 1
  · exact h1.2.2

/-- C5 counterexample to the claim as stated: with term 1 and grace 2 the
installment period count `termMonths - graceMonths` is -1, whose Price
installment is 0, yet the code charges the installment over
`max 1 (termMonths - graceMonths)` = 1 period, i.e. 6090 in month 3. -/
theorem C5_counterexample :
    financed_pay 6000 (3/200) 1 2 3 = 6090 ∧
    pmt_price 6000 (3/200) ((1 : ℤ) - 2) = 0 ∧
    financed_pay 6000 (3/200) 1 2 3 ≠ pmt_price 6000 (3/200) ((1 : ℤ) - 2) := by
  have hmax : max 1 (((1 : ℕ) : ℤ) - ((2 : ℕ) : ℤ)) = 1 := by decide
  have hcode : financed_pay 6000 (3/200) 1 2 3 = 6090 := by
    simp only [financed_pay, financed_installment]
    rw [if_neg (by norm_num), hmax]
    simp only [pmt_price]
    norm_num
  have hspec : pmt_price 6000 (3/200) ((1 : ℤ) - 2) = 0 := by
    simp only [pmt_price]
    norm_num
  refine ⟨hcode, hspec, ?_⟩
  rw [hcode, hspec]
  norm_num

/-! ### C3, C10, C7: compute_monthly_dre -/

theorem emb_alloc_foldl_zero (vv : ℚ) (embs : List Emb) (precos : List Preco)
    (hvv : vv = 0) : ∀ (l : List (String × ℚ)) (acc : ℚ × ℚ),
    l.foldl (emb_alloc_step vv embs precos) acc = acc := by
  subst hvv
  intro l
  induction l with
  | nil => intro acc; rfl
  | cons p t ih =>
    intro acc
    rw [List.foldl_cons]
    have hstep : emb_alloc_step 0 embs precos acc p = acc := by
      simp only [emb_alloc_step]
      split
      · rfl
      · simp
    rw [hstep, ih]

theorem emb_alloc_foldl (vv : ℚ) (embs : List Emb) (precos : List Preco) :
    ∀ (l : List (String × ℚ)) (acc : ℚ × ℚ),
    l.foldl (emb_alloc_step vv embs precos) acc =
      (acc.1 + ((l.filter (fun e => 0 < (get_pack_cost embs e.1).1)).map
          (fun e => vv * (e.2 / 100) / (get_pack_cost embs e.1).1 *
            get_price precos e.1 "Varejo")).sum,
       acc.2 + ((l.filter (fun e => 0 < (get_pack_cost embs e.1).1)).map
          (fun e => vv * (e.2 / 100) / (get_pack_cost embs e.1).1 *
            (get_pack_cost embs e.1).2)).sum) := by
  intro l
  induction l with
  | nil => intro acc; simp
  | cons p t ih =>
    intro acc
    rw [List.foldl_cons, ih]
    by_cases h : (get_pack_cost embs p.1).1 ≤ 0
    · have hf : (p :: t).filter (fun e => 0 < (get_pack_cost embs e.1).1) =
          t.filter (fun e => 0 < (get_pack_cost embs e.1).1) := by
        rw [List.filter_cons_of_neg]
        simp only [decide_eq_true_eq, not_lt]
        exact h
      rw [hf]
      simp only [emb_alloc_step]
      rw [if_pos h]
    · have hf : (p :: t).filter (fun e => 0 < (get_pack_cost embs e.1).1) =
          p :: t.filter (fun e => 0 < (get_pack_cost embs e.1).1) := by
        rw [List.filter_cons_of_pos]
        simp only [decide_eq_true_eq]
        exact not_le.mp h
      rw [hf]
      simp only [emb_alloc_step]
      rw [if_neg h]
      simp only [List.map_cons, List.sum_cons, Prod.mk.injEq]
      constructor <;> ring

/-- C3.  In the monthly P&L, the liquid COGS equals the (non-negative)
total monthly volume times the recipe cost per liter, independent of the
channel-mix percentages and packaged distribution; total COGS is liquid
COGS plus packaging cost plus cup cost; taxes are gross revenue times
tax-percent/100; and the contribution margin is gross revenue minus taxes
minus total COGS. -/
theorem C3_monthly_dre (v tap vch vemb tap' vch' vemb' : ℚ)
    (dist dist' : List (String × Option ℚ)) (nome : Option String)
    (rh : List RecipeHeader) (rd : List RecipeLine) (embs : List Emb)
    (precos : List Preco) (prem : Prem) (hv : 0 ≤ v) :
    ((compute_monthly_dre v tap vch vemb dist nome rh rd embs precos prem).cmvLiquido =
      v * recipe_cost_per_liter rh rd prem nome) ∧
    ((compute_monthly_dre v tap vch vemb dist nome rh rd embs precos prem).cmvLiquido =
      (compute_monthly_dre v tap' vch' vemb' dist' nome rh rd embs precos prem).cmvLiquido) ∧
    ((compute_monthly_dre v tap vch vemb dist nome rh rd embs precos prem).cmvTotal =
      (compute_monthly_dre v tap vch vemb dist nome rh rd embs precos prem).cmvLiquido +
      (compute_monthly_dre v tap vch vemb dist nome rh rd embs precos prem).custoEmbalagens +
      (compute_monthly_dre v tap vch vemb dist nome rh rd embs precos prem).custoCopos) ∧
    ((compute_monthly_dre v tap vch vemb dist nome rh rd embs precos prem).impostos =
      (compute_monthly_dre v tap vch vemb dist nome rh rd embs precos prem).receitaBruta *
        (prem.impostosPct / 100)) ∧
    ((compute_monthly_dre v tap vch vemb dist nome rh rd embs precos prem).margem =
      (compute_monthly_dre v tap vch vemb dist nome rh rd embs precos prem).receitaBruta -
      (compute_monthly_dre v tap vch vemb dist nome rh rd embs precos prem).impostos -
      (compute_monthly_dre v tap vch vemb dist nome rh rd embs precos prem).cmvTotal) := by
  refine ⟨?_, rfl, rfl, rfl, rfl⟩
  simp only [compute_monthly_dre]
  rw [max_eq_right hv]

/-- Witness for C3 at a concrete scenario: the liquid COGS equals
volume × recipe cost per liter. -/
theorem C3_monthly_dre_witness :
    (compute_monthly_dre 100 30 25 45 [("Lata", some 100)] none
      [] [] [] [] ⟨1, 1, 1, 1, 10, 0⟩).cmvLiquido =
      100 * recipe_cost_per_liter [] [] ⟨1, 1, 1, 1, 10, 0⟩ none :=
  (C3_monthly_dre 100 30 25 45 30 25 45 [("Lata", some 100)] [("Lata", some 100)]
    none [] [] [] [] ⟨1, 1, 1, 1, 10, 0⟩ (by norm_num)).1

/-- C10.  The monthly P&L clamps a negative total volume to zero before
any allocation: for a negative volume the whole result equals the result
at volume 0, and the per-channel volumes, cup count and gross revenue are
all zero (never negative or sign-flipped). -/
theorem C10_negative_volume (v tap vch vemb : ℚ)
    (dist : List (String × Option ℚ)) (nome : Option String)
    (rh : List RecipeHeader) (rd : List RecipeLine) (embs : List Emb)
    (precos : List Preco) (prem : Prem) (hv : v < 0) :
    (compute_monthly_dre v tap vch vemb dist nome rh rd embs precos prem =
      compute_monthly_dre 0 tap vch vemb dist nome rh rd embs precos prem) ∧
    ((compute_monthly_dre v tap vch vemb dist nome rh rd embs precos prem).varejoChopeL = 0) ∧
    ((compute_monthly_dre v tap vch vemb dist nome rh rd embs precos prem).varejoEmbaladoL = 0) ∧
    ((compute_monthly_dre v tap vch vemb dist nome rh rd embs precos prem).taproomCopos = 0) ∧
    ((compute_monthly_dre v tap vch vemb dist nome rh rd embs precos prem).receitaBruta = 0) := by
  have h0 : max (0 : ℚ) v = 0 := max_eq_left hv.le
  have hmax : max (0 : ℚ) v = max (0 : ℚ) 0 := by rw [h0, max_self]
  refine ⟨?_, ?_, ?_, ?_, ?_⟩
  · simp only [compute_monthly_dre, hmax]
  · simp only [compute_monthly_dre]
    rw [h0]
    ring
  · simp only [compute_monthly_dre]
    rw [h0]
    ring
  · simp only [compute_monthly_dre]
    rw [h0]
    split <;> simp
  · simp only [compute_monthly_dre]
    rw [h0]
    rw [emb_alloc_foldl_zero (0 * (vemb / 100)) embs precos (by ring)]
    split <;> simp

/-- Witness for C10 at volume -50: the result coincides with the
volume-0 result and the gross revenue is 0. -/
theorem C10_negative_volume_witness :
    (compute_monthly_dre (-50) 30 25 45 [("Lata", some 100)] none
      [] [] [⟨"Lata", 1/2, 2⟩] [] ⟨1, 1, 1, 1, 10, 0⟩ =
     compute_monthly_dre 0 30 25 45 [("Lata", some 100)] none
      [] [] [⟨"Lata", 1/2, 2⟩] [] ⟨1, 1, 1, 1, 10, 0⟩) ∧
    (compute_monthly_dre (-50) 30 25 45 [("Lata", some 100)] none
      [] [] [⟨"Lata", 1/2, 2⟩] [] ⟨1, 1, 1, 1, 10, 0⟩).receitaBruta = 0 := by
  have h := C10_negative_volume (-50) 30 25 45 [("Lata", some 100)] none
    [] [] [⟨"Lata", 1/2, 2⟩] [] ⟨1, 1, 1, 1, 10, 0⟩ (by norm_num)
  exact ⟨h.1, h.2.2.2.2⟩

/-- C7 (amended).  In the packaged allocation, every packaging type with
non-positive volume-per-unit is skipped and each kept type contributes
units = allotted-liters / volume-per-unit to cost (no division by zero);
the Taproom cup count uses the default volume 0.473 L exactly when the
"Copo Taproom" lookup yields volume 0 (in particular when the entry is
absent), uses the stored volume when it is positive, and is 0 (not the
default) when the stored volume is negative. -/
theorem C7_allocation (v tap vch vemb : ℚ)
    (dist : List (String × Option ℚ)) (nome : Option String)
    (rh : List RecipeHeader) (rd : List RecipeLine) (embs : List Emb)
    (precos : List Preco) (prem : Prem) :
    ((compute_monthly_dre v tap vch vemb dist nome rh rd embs precos prem).custoEmbalagens =
      (((normalize_dist dist).filter (fun e => 0 < (get_pack_cost embs e.1).1)).map
        (fun e => max 0 v * (vemb / 100) * (e.2 / 100) / (get_pack_cost embs e.1).1 *
          (get_pack_cost embs e.1).2)).sum) ∧
    ((get_pack_cost embs "Copo Taproom").1 = 0 →
      (compute_monthly_dre v tap vch vemb dist nome rh rd embs precos prem).taproomCopos =
        max 0 v * (tap / 100) / (473 / 1000)) ∧
    (0 < (get_pack_cost embs "Copo Taproom").1 →
      (compute_monthly_dre v tap vch vemb dist nome rh rd embs precos prem).taproomCopos =
        max 0 v * (tap / 100) / (get_pack_cost embs "Copo Taproom").1) ∧
    ((get_pack_cost embs "Copo Taproom").1 < 0 →
      (compute_monthly_dre v tap vch vemb dist nome rh rd embs precos prem).taproomCopos = 0) := by
  refine ⟨?_, ?_, ?_, ?_⟩
  · simp only [compute_monthly_dre]
    rw [emb_alloc_foldl]
    simp
  · intro h
    simp only [compute_monthly_dre]
    rw [if_pos h, if_pos (by norm_num : (473 : ℚ) / 1000 > 0)]
  · intro h
    simp only [compute_monthly_dre]
    rw [if_neg (ne_of_gt h), if_pos h]
  · intro h
    simp only [compute_monthly_dre]
    rw [if_neg (ne_of_lt h), if_neg (not_lt.mpr h.le)]

/-- Witness for C7: a "Copo Taproom" entry with stored volume 0 falls
back to the 0.473 L default cup volume, and an entry with positive
volume 0.5 is used as is. -/
theorem C7_allocation_witness :
    (compute_monthly_dre 100 100 0 0 [] none [] []
      [⟨"Copo Taproom", 0, 1/4⟩] [] ⟨0, 0, 0, 0, 0, 0⟩).taproomCopos =
      max 0 100 * (100 / 100) / (473 / 1000) ∧
    (compute_monthly_dre 100 100 0 0 [] none [] []
      [⟨"Copo Taproom", 1/2, 1/4⟩] [] ⟨0, 0, 0, 0, 0, 0⟩).taproomCopos =
      max 0 100 * (100 / 100) / (1/2) := by
  constructor
  · exact (C7_allocation 100 100 0 0 [] none [] []
      [⟨"Copo Taproom", 0, 1/4⟩] [] ⟨0, 0, 0, 0, 0, 0⟩).2.1 rfl
  · have h := (C7_allocation 100 100 0 0 [] none [] []
      [⟨"Copo Taproom", 1/2, 1/4⟩] [] ⟨0, 0, 0, 0, 0, 0⟩).2.2.1
      (by norm_num [get_pack_cost, List.find?])
    rw [h]
    norm_num [get_pack_cost, List.find?]

/-- C7 counterexample to the claim as stated: with a "Copo Taproom"
entry whose stored volume is -1 (non-positive), the claim predicts the
0.473 L default, i.e. 100 / 0.473 cups for 100 taproom liters, but the
code computes 0 cups (Python `or` only replaces a volume equal to 0). -/
theorem C7_counterexample :
    (compute_monthly_dre 100 100 0 0 [] none [] []
      [⟨"Copo Taproom", -1, 0⟩] [] ⟨0, 0, 0, 0, 0, 0⟩).taproomCopos = 0 ∧
    max (0 : ℚ) 100 * (100 / 100) / (473 / 1000) ≠ 0 := by
  constructor
  · simp only [compute_monthly_dre]
    norm_num [get_pack_cost, List.find?]
  · norm_num

/-! ### C8/C9: store load and migration -/

theorem alLookup_insert {α : Type} (k k' : String) (v : α) (d : List (String × α)) :
    alLookup k (alInsert k' v d) = if k' = k then some v else alLookup k d := by
  induction d with
  | nil => simp [alInsert, alLookup]
  | cons p t ih =>
    simp only [alInsert]
    by_cases h : p.1 = k'
    · rw [if_pos h]
      by_cases h2 : k' = k
      · simp [alLookup, h2]
      · have hpk : ¬ p.1 = k := fun hh => h2 ((h.symm.trans hh))
        simp [alLookup, h2, hpk]
    · rw [if_neg h]
      simp only [alLookup, ih]
      by_cases hp : p.1 = k
      · have hk2 : ¬ k' = k := fun hh => h (hp.trans hh.symm)
        simp [hp, hk2]
      · by_cases h2 : k' = k <;> simp [hp, h2]

theorem alLookup_eq_none {α : Type} (k : String) (d : List (String × α)) :
    alLookup k d = none ↔ k ∉ d.map Prod.fst := by
  induction d with
  | nil => simp [alLookup]
  | cons p t ih =>
    simp only [alLookup, List.map_cons, List.mem_cons]
    by_cases h : p.1 = k
    · simp [h]
    · simp only [if_neg h, ih]
      constructor
      · intro hn hor
        rcases hor with hor | hor
        · exact h hor.symm
        · exact hn hor
      · intro hn
        exact fun hm => hn (Or.inr hm)

theorem alInsert_keys {α : Type} (k : String) (v : α) (d : List (String × α)) :
    (alInsert k v d).map Prod.fst =
      if k ∈ d.map Prod.fst then d.map Prod.fst else d.map Prod.fst ++ [k] := by
  induction d with
  | nil => simp [alInsert]
  | cons p t ih =>
    simp only [alInsert]
    by_cases h : p.1 = k
    · rw [if_pos h]
      simp [h]
    · rw [if_neg h]
      simp only [List.map_cons, ih, List.mem_cons]
      by_cases hm : k ∈ t.map Prod.fst
      · rw [if_pos hm, if_pos (Or.inr hm)]
      · rw [if_neg hm, if_neg ?_]
        · simp
        · intro hor
          rcases hor with hor | hor
          · exact h hor.symm
          · exact hm hor

theorem alInsert_nodup {α : Type} (k : String) (v : α) (d : List (String × α))
    (h : (d.map Prod.fst).Nodup) : ((alInsert k v d).map Prod.fst).Nodup := by
  rw [alInsert_keys]
  by_cases hm : k ∈ d.map Prod.fst
  · rw [if_pos hm]; exact h
  · rw [if_neg hm]
    rw [List.nodup_append]
    refine ⟨h, List.nodup_singleton k, ?_⟩
    intro a ha hb
    simp only [List.mem_singleton] at hb
    exact hm (hb ▸ ha)

theorem alRemove_keys_sublist {α : Type} (k : String) (d : List (String × α)) :
    ((alRemove k d).map Prod.fst).Sublist (d.map Prod.fst) := by
  induction d with
  | nil => simp [alRemove]
  | cons p t ih =>
    simp only [alRemove]
    by_cases h : p.1 = k
    · rw [if_pos h]
      simp only [List.map_cons]
      exact (List.sublist_cons_self _ _)
    · rw [if_neg h]
      simp only [List.map_cons]
      exact ih.cons₂ p.1

theorem alRemove_nodup {α : Type} (k : String) (d : List (String × α))
    (h : (d.map Prod.fst).Nodup) : ((alRemove k d).map Prod.fst).Nodup :=
  (alRemove_keys_sublist k d).nodup h

theorem alLookup_remove {α : Type} (k k' : String) (d : List (String × α))
    (h : (d.map Prod.fst).Nodup) :
    alLookup k (alRemove k' d) = if k' = k then none else alLookup k d := by
  induction d with
  | nil => simp [alRemove, alLookup]
  | cons p t ih =>
    simp only [List.map_cons, List.nodup_cons] at h
    simp only [alRemove]
    by_cases hp : p.1 = k'
    · rw [if_pos hp]
      by_cases h2 : k' = k
      · rw [if_pos h2]
        rw [alLookup_eq_none]
        exact fun hm => h.1 ((hp.trans h2) ▸ hm)
      · rw [if_neg h2]
        simp only [alLookup]
        rw [if_neg fun hh => h2 ((hp.symm.trans hh))]
    · rw [if_neg hp]
      simp only [alLookup, ih h.2]
      by_cases hpk : p.1 = k
      · have : ¬(k' = k) := fun hh => hp (hpk.trans hh.symm)
        rw [if_pos hpk, if_neg this, if_pos hpk]
      · rw [if_neg hpk]
        by_cases h2 : k' = k
        · rw [if_pos h2, if_pos h2]
        · rw [if_neg h2, if_neg h2, if_neg hpk]

theorem collect_fold_lookup (d : List (String × J)) (k : String) :
    ∀ (keys : List String) (acc : List (String × J)),
    alLookup k (keys.foldl (fun sc k' =>
        match alLookup k' d with
        | some v => alInsert k' v sc
        | none => sc) acc) =
      if k ∈ keys ∧ (alLookup k d).isSome then alLookup k d
      else alLookup k acc := by
  intro keys
  induction keys with
  | nil => intro acc; simp
  | cons k0 rest ih =>
    intro acc
    rw [List.foldl_cons, ih]
    by_cases hrest : k ∈ rest ∧ (alLookup k d).isSome
    · rw [if_pos hrest, if_pos ⟨List.mem_cons_of_mem k0 hrest.1, hrest.2⟩]
    · rw [if_neg hrest]
      by_cases hk0 : k0 = k
      · subst hk0
        rcases hd : alLookup k0 d with _ | v
        · simp
        · simp [alLookup_insert]
      · have hiff : ¬(k ∈ k0 :: rest ∧ (alLookup k d).isSome) := by
          intro hand
          rcases hand with ⟨hmem, hsome⟩
          rcases List.mem_cons.mp hmem with he | hm
          · exact hk0 he.symm
          · exact hrest ⟨hm, hsome⟩
        rw [if_neg hiff]
        rcases hd0 : alLookup k0 d with _ | w
        · rfl
        · simp only []
          rw [alLookup_insert, if_neg hk0]

theorem collect_legacy_lookup (d : List (String × J)) (k : String) :
    alLookup k (collect_legacy d) =
      if k ∈ legacy_keys then alLookup k d else none := by
  unfold collect_legacy
  rw [collect_fold_lookup]
  by_cases hk : k ∈ legacy_keys
  · rcases hd : alLookup k d with _ | v
    · simp [hk, alLookup]
    · simp [hk]
  · simp [hk, alLookup]

theorem collect_fold_nodup (d : List (String × J)) :
    ∀ (keys : List String) (acc : List (String × J)),
    (acc.map Prod.fst).Nodup →
    (((keys.foldl (fun sc k' =>
        match alLookup k' d with
        | some v => alInsert k' v sc
        | none => sc) acc)).map Prod.fst).Nodup := by
  intro keys
  induction keys with
  | nil => intro acc h; exact h
  | cons k0 rest ih =>
    intro acc h
    rw [List.foldl_cons]
    refine ih _ ?_
    rcases hd0 : alLookup k0 d with _ | w
    · exact h
    · simp only []
      exact alInsert_nodup k0 w acc h

theorem collect_legacy_nodup (d : List (String × J)) :
    ((collect_legacy d).map Prod.fst).Nodup := by
  unfold collect_legacy
  exact collect_fold_nodup d legacy_keys [] (by simp)

theorem rename_field_nodup (o n : String) (sc : List (String × J))
    (h : (sc.map Prod.fst).Nodup) :
    ((rename_field o n sc).map Prod.fst).Nodup := by
  unfold rename_field
  rcases ho : alLookup o sc with _ | v
  · exact h
  · rcases hn : alLookup n sc with _ | w
    · simp only []
      exact alInsert_nodup n v _ (alRemove_nodup o sc h)
    · exact h

theorem rename_field_lookup (o n : String)
    (sc : List (String × J)) (h : (sc.map Prod.fst).Nodup) (f : String) :
    alLookup f (rename_field o n sc) =
      match alLookup o sc, alLookup n sc with
      | some v, none =>
          if n = f then some v else if o = f then none else alLookup f sc
      | _, _ => alLookup f sc := by
  unfold rename_field
  rcases ho : alLookup o sc with _ | v
  · simp only []
  · rcases hn : alLookup n sc with _ | w
    · simp only []
      rw [alLookup_insert]
      by_cases hnf : n = f
      · rw [if_pos hnf, if_pos hnf]
      · rw [if_neg hnf, if_neg hnf, alLookup_remove _ _ _ h]
    · simp only []

theorem nullDefault_congr (f : String) (b1 b2 : List (String × J))
    (h : alLookup f b1 = alLookup f b2) (x : Option J) :
    nullDefault f b1 x = nullDefault f b2 x := by
  cases x with
  | none => simp [nullDefault, h]
  | some v => cases v <;> simp [nullDefault, h]

theorem update_fold_lookup (f : String) :
    ∀ (sc : List (String × J)) (base : List (String × J)),
    (sc.map Prod.fst).Nodup →
    alLookup f (sc.foldl (fun b p =>
        match p.2 with
        | J.null => b
        | v => alInsert p.1 v b) base) =
      nullDefault f base (alLookup f sc) := by
  intro sc
  induction sc with
  | nil => intro base h; simp [alLookup, nullDefault]
  | cons p t ih =>
    intro base h
    simp only [List.map_cons, List.nodup_cons] at h
    rw [List.foldl_cons, ih _ h.2]
    by_cases hf : p.1 = f
    · have ht : alLookup f t = none := by
        rw [alLookup_eq_none]
        exact fun hm => h.1 (hf ▸ hm)
      have hcons : alLookup f (p :: t) = some p.2 := by
        simp only [alLookup, if_pos hf]
      rw [ht, hcons]
      rcases p with ⟨k0, v0⟩
      cases v0 with
      | null => rfl
      | b bb => simp only [nullDefault]; rw [alLookup_insert, if_pos hf]
      | num q => simp only [nullDefault]; rw [alLookup_insert, if_pos hf]
      | str s => simp only [nullDefault]; rw [alLookup_insert, if_pos hf]
      | arr l => simp only [nullDefault]; rw [alLookup_insert, if_pos hf]
      | obj l => simp only [nullDefault]; rw [alLookup_insert, if_pos hf]
    · have hcons : alLookup f (p :: t) = alLookup f t := by
        simp only [alLookup, if_neg hf]
      rw [hcons]
      refine nullDefault_congr f _ _ ?_ _
      rcases p with ⟨k0, v0⟩
      cases v0 with
      | null => rfl
      | b bb => simp only []; rw [alLookup_insert, if_neg hf]
      | num q => simp only []; rw [alLookup_insert, if_neg hf]
      | str s => simp only []; rw [alLookup_insert, if_neg hf]
      | arr l => simp only []; rw [alLookup_insert, if_neg hf]
      | obj l => simp only []; rw [alLookup_insert, if_neg hf]

theorem rename_field_lookup_other (o n f : String) (hof : o ≠ f) (hnf : n ≠ f)
    (sc : List (String × J)) (h : (sc.map Prod.fst).Nodup) :
    alLookup f (rename_field o n sc) = alLookup f sc := by
  rw [rename_field_lookup o n sc h f]
  rcases alLookup o sc with _ | v
  · rfl
  · rcases alLookup n sc with _ | w
    · simp [hof, hnf]
    · rfl

theorem rename_field_lookup_new (o n : String) (sc : List (String × J))
    (h : (sc.map Prod.fst).Nodup) :
    alLookup n (rename_field o n sc) =
      match alLookup o sc, alLookup n sc with
      | some v, none => some v
      | _, _ => alLookup n sc := by
  rw [rename_field_lookup o n sc h n]
  rcases alLookup o sc with _ | v
  · rfl
  · rcases alLookup n sc with _ | w
    · simp
    · rfl

theorem rename_field_lookup_old (o n : String) (hon : o ≠ n)
    (sc : List (String × J)) (h : (sc.map Prod.fst).Nodup) :
    alLookup o (rename_field o n sc) =
      match alLookup o sc, alLookup n sc with
      | some _, none => none
      | _, _ => alLookup o sc := by
  rw [rename_field_lookup o n sc h o]
  rcases alLookup o sc with _ | v
  · rfl
  · rcases alLookup n sc with _ | w
    · simp [Ne.symm hon]
    · rfl

/-- C8 (amended).  For every parsed document that is a mapping without a
top-level "scenarios" key, `load_db` returns a store whose scenarios
mapping is exactly the single entry "Base" with the selected pointer
"Base"; the "Base" scenario holds, at every field, the document's
recognized value — with `opex_db` renamed to the current OpexItems field
and `precos_venda` to the current Prices field only when the document
does not itself supply the new-name field (when both are supplied, the
new-name field wins and the legacy key is kept as an extra field), and
null values treated as not supplied — merged over the default scenario's
values. -/
theorem C8_legacy_migration (d : List (String × J)) (f : String)
    (hns : alLookup "scenarios" d = none) :
    load_db (some (J.obj d)) =
      some [("scenarios", J.obj [("Base", J.obj (migrate1_base d))]),
            ("selected", J.str "Base")] ∧
    alLookup f (migrate1_base d) = mergedFieldSpec d f := by
  constructor
  · simp only [load_db, hns, migrate1_result]
  · have hnod0 := collect_legacy_nodup d
    have hnod1 := rename_field_nodup "opex_db" "opex_outros_db" _ hnod0
    have hnod2 := rename_field_nodup "precos_venda" "precos_sku" _ hnod1
    have h0 := collect_legacy_lookup d
    have hpv1 : alLookup "precos_venda"
        (rename_field "opex_db" "opex_outros_db" (collect_legacy d)) =
        alLookup "precos_venda" d := by
      rw [rename_field_lookup_other "opex_db" "opex_outros_db" "precos_venda"
        (by decide) (by decide) _ hnod0, h0, if_pos (by decide)]
    have hps1 : alLookup "precos_sku"
        (rename_field "opex_db" "opex_outros_db" (collect_legacy d)) =
        alLookup "precos_sku" d := by
      rw [rename_field_lookup_other "opex_db" "opex_outros_db" "precos_sku"
        (by decide) (by decide) _ hnod0, h0, if_pos (by decide)]
    have hod0 : alLookup "opex_db" (collect_legacy d) = alLookup "opex_db" d := by
      rw [h0, if_pos (by decide)]
    have hoo0 : alLookup "opex_outros_db" (collect_legacy d) =
        alLookup "opex_outros_db" d := by
      rw [h0, if_pos (by decide)]
    simp only [migrate1_base]
    rw [update_fold_lookup f _ default_scenario_j hnod2]
    simp only [mergedFieldSpec]
    by_cases hf1 : f = "opex_outros_db"
    · subst hf1
      rw [rename_field_lookup_other "precos_venda" "precos_sku" "opex_outros_db"
        (by decide) (by decide) _ hnod1]
      rw [rename_field_lookup_new "opex_db" "opex_outros_db" _ hnod0]
      rw [hod0, hoo0, if_pos rfl]
      refine congrArg (nullDefault "opex_outros_db" default_scenario_j) ?_
      rcases alLookup "opex_outros_db" d with _ | w
      · rcases alLookup "opex_db" d with _ | v <;> rfl
      · rcases alLookup "opex_db" d with _ | v <;> rfl
    · by_cases hf3 : f = "precos_sku"
      · subst hf3
        rw [rename_field_lookup_new "precos_venda" "precos_sku" _ hnod1]
        rw [hpv1, hps1, if_neg (by decide), if_pos rfl]
        refine congrArg (nullDefault "precos_sku" default_scenario_j) ?_
        rcases alLookup "precos_sku" d with _ | w
        · rcases alLookup "precos_venda" d with _ | v <;> rfl
        · rcases alLookup "precos_venda" d with _ | v <;> rfl
      · by_cases hf2 : f = "opex_db"
        · subst hf2
          rw [rename_field_lookup_other "precos_venda" "precos_sku" "opex_db"
            (by decide) (by decide) _ hnod1]
          rw [rename_field_lookup_old "opex_db" "opex_outros_db" (by decide) _ hnod0]
          rw [hod0, hoo0, if_neg (by decide), if_neg (by decide), if_pos rfl]
          refine congrArg (nullDefault "opex_db" default_scenario_j) ?_
          rcases alLookup "opex_outros_db" d with _ | w
          · rcases alLookup "opex_db" d with _ | v <;> rfl
          · rcases alLookup "opex_db" d with _ | v <;> rfl
        · by_cases hf4 : f = "precos_venda"
          · subst hf4
            rw [rename_field_lookup_old "precos_venda" "precos_sku" (by decide) _ hnod1]
            rw [hpv1, hps1, if_neg (by decide), if_neg (by decide),
              if_neg (by decide), if_pos rfl]
            refine congrArg (nullDefault "precos_venda" default_scenario_j) ?_
            rcases alLookup "precos_sku" d with _ | w
            · rcases alLookup "precos_venda" d with _ | v <;> rfl
            · rcases alLookup "precos_venda" d with _ | v <;> rfl
          · rw [rename_field_lookup_other "precos_venda" "precos_sku" f
              (fun h => hf4 h.symm) (fun h => hf3 h.symm) _ hnod1]
            rw [rename_field_lookup_other "opex_db" "opex_outros_db" f
              (fun h => hf2 h.symm) (fun h => hf1 h.symm) _ hnod0]
            rw [h0]
            rw [if_neg hf1, if_neg hf3, if_neg hf2, if_neg hf4]

/-- Witness for C8 at a concrete legacy document carrying `capex_db` and
a legacy `opex_db`: loading wraps it as the single "Base" scenario and
the OpexItems field holds the renamed `opex_db` value. -/
theorem C8_legacy_migration_witness :
    load_db (some (J.obj [("capex_db", J.arr []), ("opex_db", J.num 7)])) =
      some [("scenarios", J.obj [("Base",
        J.obj (migrate1_base [("capex_db", J.arr []), ("opex_db", J.num 7)]))]),
        ("selected", J.str "Base")] ∧
    alLookup "opex_outros_db"
        (migrate1_base [("capex_db", J.arr []), ("opex_db", J.num 7)]) =
      mergedFieldSpec [("capex_db", J.arr []), ("opex_db", J.num 7)] "opex_outros_db" :=
  C8_legacy_migration [("capex_db", J.arr []), ("opex_db", J.num 7)]
    "opex_outros_db" rfl

/-- C8 counterexample to the claim as stated: a document carrying both
`opex_db` (value 1) and `opex_outros_db` (value 2) is NOT renamed —
the wrapped "Base" scenario keeps `opex_outros_db` = 2 (not the
"renamed" 1) and retains `opex_db` = 1 as an extra field. -/
theorem C8_counterexample :
    alLookup "opex_outros_db"
        (migrate1_base [("opex_db", J.num 1), ("opex_outros_db", J.num 2)]) =
      some (J.num 2) ∧
    alLookup "opex_db"
        (migrate1_base [("opex_db", J.num 1), ("opex_outros_db", J.num 2)]) =
      some (J.num 1) ∧
    some (J.num 2) ≠ some (J.num 1) ∧
    load_db (some (J.obj [("opex_db", J.num 1), ("opex_outros_db", J.num 2)])) =
      some [("scenarios", J.obj [("Base",
        J.obj (migrate1_base [("opex_db", J.num 1), ("opex_outros_db", J.num 2)]))]),
        ("selected", J.str "Base")] := by
  refine ⟨rfl, rfl, ?_, rfl⟩
  intro h
  have h2 := Option.some_inj.mp h
  have h3 : (2 : ℚ) = 1 := by injection h2
  norm_num at h3

/-- C9.  `load_db` on the well-formed JSON document `5`: the membership
test `"scenarios" not in raw` raises `TypeError` (an int is not
iterable) outside the try block, so the load crashes instead of
returning a store — the claimed total robustness fails on this input. -/
theorem C9_load_crash_on_scalar :
    load_db (some (J.num 5)) = none ∧ load_db none = some empty_db :=
  ⟨rfl, rfl⟩

/-! ### C6: export/import round-trip -/

theorem alInsert_self {α : Type} (k : String) (v : α) (d : List (String × α))
    (h : alLookup k d = some v) : alInsert k v d = d := by
  induction d with
  | nil => simp [alLookup] at h
  | cons p t ih =>
    simp only [alLookup] at h
    simp only [alInsert]
    by_cases hp : p.1 = k
    · rw [if_pos hp]
      rw [if_pos hp] at h
      have hv : p.2 = v := Option.some_inj.mp h
      rw [← hp, ← hv]
    · rw [if_neg hp]
      rw [if_neg hp] at h
      rw [ih h]

theorem alInsert_fresh {α : Type} (k : String) (v : α) (d : List (String × α))
    (h : alLookup k d = none) : alInsert k v d = d ++ [(k, v)] := by
  induction d with
  | nil => rfl
  | cons p t ih =>
    simp only [alLookup] at h
    by_cases hp : p.1 = k
    · rw [if_pos hp] at h
      exact absurd h (Option.some_ne_none p.2)
    · rw [if_neg hp] at h
      simp only [alInsert, if_neg hp, List.cons_append]
      rw [ih h]

theorem alInsert_alInsert {α : Type} (k : String) (v w : α)
    (d : List (String × α)) : alInsert k v (alInsert k w d) = alInsert k v d := by
  induction d with
  | nil => simp [alInsert]
  | cons p t ih =>
    by_cases hp : p.1 = k
    · simp [alInsert, hp]
    · simp only [alInsert, if_neg hp]
      rw [ih]

theorem alLookup_append {α : Type} (k : String) (d1 d2 : List (String × α)) :
    alLookup k (d1 ++ d2) =
      match alLookup k d1 with
      | some v => some v
      | none => alLookup k d2 := by
  induction d1 with
  | nil => simp [alLookup]
  | cons p t ih =>
    simp only [List.cons_append, alLookup]
    by_cases hp : p.1 = k <;> simp [hp, ih]

theorem alInsert_append_last {α : Type} (k : String) (v w : α)
    (acc : List (String × α)) (h : alLookup k acc = none) :
    alInsert k v (acc ++ [(k, w)]) = acc ++ [(k, v)] := by
  induction acc with
  | nil => simp [alInsert]
  | cons p t ih =>
    simp only [alLookup] at h
    by_cases hp : p.1 = k
    · rw [if_pos hp] at h
      exact absurd h (Option.some_ne_none p.2)
    · rw [if_neg hp] at h
      simp only [List.cons_append, alInsert, if_neg hp]
      exact congrArg (p :: ·) (ih h)

theorem kv_fold_append : ∀ (xs ys : List (String × QV))
    (acc : List (String × MixV)),
    kv_fold acc (xs ++ ys) =
      match kv_fold acc xs with
      | some a => kv_fold a ys
      | none => none := by
  intro xs
  induction xs with
  | nil => intro ys acc; rfl
  | cons r t ih =>
    intro ys acc
    simp only [List.cons_append, kv_fold]
    rcases kv_step acc r with _ | a
    · rfl
    · exact ih ys a

theorem kv_fold_dist_ext (b : String) :
    ∀ (l done : List (String × QV)) (acc : List (String × MixV)),
    alLookup b acc = some (MixV.dist done) →
    (∀ q ∈ l, splitComposite (b ++ "::" ++ q.1) = some (b, q.1)) →
    (((done ++ l).map Prod.fst).Nodup) →
    kv_fold acc (l.map (fun q => (b ++ "::" ++ q.1, q.2))) =
      some (alInsert b (MixV.dist (done ++ l)) acc) := by
  intro l
  induction l with
  | nil =>
    intro done acc hacc _ _
    simp only [List.map_nil, kv_fold, List.append_nil]
    rw [alInsert_self b _ acc hacc]
  | cons q qr ih =>
    intro done acc hacc hsplit hnodup
    simp only [List.map_cons, kv_fold]
    have hsp := hsplit q (List.mem_cons_self q qr)
    have hstep : kv_step acc (b ++ "::" ++ q.1, q.2) =
        some (alInsert b (MixV.dist (alInsert q.1 q.2 done)) acc) := by
      simp only [kv_step, hsp, hacc]
    rw [hstep]
    have hq1 : alLookup q.1 done = none := by
      rw [alLookup_eq_none]
      intro hm
      rw [List.map_append, List.nodup_append] at hnodup
      exact hnodup.2.2 hm (by simp)
    show kv_fold (alInsert b (MixV.dist (alInsert q.1 q.2 done)) acc)
        (qr.map (fun q => (b ++ "::" ++ q.1, q.2))) =
      some (alInsert b (MixV.dist (done ++ q :: qr)) acc)
    rw [alInsert_fresh q.1 q.2 done hq1]
    have hpair : (q.1, q.2) = q := rfl
    rw [hpair]
    have hacc' : alLookup b (alInsert b (MixV.dist (done ++ [q])) acc) =
        some (MixV.dist (done ++ [q])) := by
      rw [alLookup_insert, if_pos rfl]
    have hnodup' : (((done ++ [q]) ++ qr).map Prod.fst).Nodup := by
      rw [List.append_assoc, List.singleton_append]
      exact hnodup
    have hsplit' : ∀ q' ∈ qr, splitComposite (b ++ "::" ++ q'.1) = some (b, q'.1) :=
      fun q' hq' => hsplit q' (List.mem_cons_of_mem q hq')
    rw [ih (done ++ [q]) _ hacc' hsplit' hnodup']
    rw [alInsert_alInsert]
    rw [List.append_assoc, List.singleton_append]

theorem kv_fold_flatten : ∀ (mix : List (String × MixV)) (acc : List (String × MixV)),
    (∀ p ∈ mix, alLookup p.1 acc = none) →
    ((mix.map Prod.fst).Nodup) →
    (∀ p ∈ mix, splitComposite p.1 = none) →
    (∀ p ∈ mix, ∀ l, p.2 = MixV.dist l → l ≠ [] ∧ (l.map Prod.fst).Nodup ∧
        (∀ q ∈ l, splitComposite (p.1 ++ "::" ++ q.1) = some (p.1, q.1))) →
    kv_fold acc (flatten_mix mix) = some (acc ++ mix) := by
  intro mix
  induction mix with
  | nil =>
    intro acc _ _ _ _
    simp [flatten_mix, kv_fold]
  | cons p rest ih =>
    intro acc hdisj hnodup hkeys hdist
    have hpmem : p ∈ p :: rest := List.mem_cons_self p rest
    have hflat : flatten_mix (p :: rest) =
        (match p.2 with
         | MixV.scalar v => [(p.1, v)]
         | MixV.dist l => l.map (fun q => (p.1 ++ "::" ++ q.1, q.2))) ++
          flatten_mix rest := rfl
    rw [hflat, kv_fold_append]
    have hstep1 : kv_fold acc (match p.2 with
        | MixV.scalar v => [(p.1, v)]
        | MixV.dist l => l.map (fun q => (p.1 ++ "::" ++ q.1, q.2))) =
        some (acc ++ [p]) := by
      rcases hp2 : p.2 with v | l
      · show kv_fold acc [(p.1, v)] = some (acc ++ [p])
        show (match kv_step acc (p.1, v) with
          | none => none
          | some out' => kv_fold out' []) = some (acc ++ [p])
        have hstep : kv_step acc (p.1, v) =
            some (alInsert p.1 (MixV.scalar v) acc) := by
          simp only [kv_step, hkeys p hpmem]
        rw [hstep]
        show some (alInsert p.1 (MixV.scalar v) acc) = some (acc ++ [p])
        rw [alInsert_fresh p.1 _ acc (hdisj p hpmem)]
        rw [show (p.1, MixV.scalar v) = p from by rw [← hp2]]
      · obtain ⟨hlne, hlnodup, hlsplit⟩ := hdist p hpmem l hp2
        rcases l with _ | ⟨q0, qr⟩
        · exact absurd rfl hlne
        · show kv_fold acc
            ((q0 :: qr).map (fun q => (p.1 ++ "::" ++ q.1, q.2))) = some (acc ++ [p])
          simp only [List.map_cons, kv_fold]
          have hsp0 := hlsplit q0 (List.mem_cons_self q0 qr)
          have hstep0 : kv_step acc (p.1 ++ "::" ++ q0.1, q0.2) =
              some (alInsert p.1 (MixV.dist [(q0.1, q0.2)]) acc) := by
            simp only [kv_step, hsp0, hdisj p hpmem]
          rw [hstep0]
          show kv_fold (alInsert p.1 (MixV.dist [(q0.1, q0.2)]) acc)
              (qr.map (fun q => (p.1 ++ "::" ++ q.1, q.2))) = some (acc ++ [p])
          have hpair0 : (q0.1, q0.2) = q0 := rfl
          rw [hpair0, alInsert_fresh p.1 _ acc (hdisj p hpmem)]
          have hacc' : alLookup p.1 (acc ++ [(p.1, MixV.dist [q0])]) =
              some (MixV.dist [q0]) := by
            rw [alLookup_append, hdisj p hpmem]
            simp [alLookup]
          have hnodup0 : (([q0] ++ qr).map Prod.fst).Nodup := by
            rw [List.singleton_append]
            exact hlnodup
          have hsplit' : ∀ q' ∈ qr,
              splitComposite (p.1 ++ "::" ++ q'.1) = some (p.1, q'.1) :=
            fun q' hq' => hlsplit q' (List.mem_cons_of_mem q0 hq')
          rw [kv_fold_dist_ext p.1 qr [q0] _ hacc' hsplit' hnodup0]
          rw [List.singleton_append]
          rw [alInsert_append_last p.1 _ _ acc (hdisj p hpmem)]
          rw [show (p.1, MixV.dist (q0 :: qr)) = p from by rw [← hp2]]
    rw [hstep1]
    show kv_fold (acc ++ [p]) (flatten_mix rest) = some (acc ++ p :: rest)
    have hnodup' : (rest.map Prod.fst).Nodup := by
      simp only [List.map_cons, List.nodup_cons] at hnodup
      exact hnodup.2
    have hpfst : p.1 ∉ rest.map Prod.fst := by
      simp only [List.map_cons, List.nodup_cons] at hnodup
      exact hnodup.1
    have hdisj' : ∀ p' ∈ rest, alLookup p'.1 (acc ++ [p]) = none := by
      intro p' hp'
      rw [alLookup_append, hdisj p' (List.mem_cons_of_mem p hp')]
      simp only [alLookup]
      rw [if_neg ?_]
      intro hh
      exact hpfst (by rw [hh]; exact List.mem_map_of_mem Prod.fst hp')
    have hkeys' : ∀ p' ∈ rest, splitComposite p'.1 = none :=
      fun p' hp' => hkeys p' (List.mem_cons_of_mem p hp')
    have hdist' : ∀ p' ∈ rest, ∀ l, p'.2 = MixV.dist l → l ≠ [] ∧
        (l.map Prod.fst).Nodup ∧
        (∀ q ∈ l, splitComposite (p'.1 ++ "::" ++ q.1) = some (p'.1, q.1)) :=
      fun p' hp' => hdist p' (List.mem_cons_of_mem p hp')
    rw [ih (acc ++ [p]) hdisj' hnodup' hkeys' hdist']
    rw [List.append_assoc, List.singleton_append]

theorem flatten_mix_scalar (rows : List (String × QV)) :
    flatten_mix (rows.map (fun p => (p.1, MixV.scalar p.2))) = rows := by
  induction rows with
  | nil => rfl
  | cons p t ih =>
    simp only [List.map_cons, flatten_mix, List.flatMap_cons] at ih ⊢
    rw [ih]
    rfl

theorem kv_sheet_flat (rows : List (String × QV))
    (hnodup : (rows.map Prod.fst).Nodup)
    (hkeys : ∀ p ∈ rows, splitComposite p.1 = none) :
    kv_sheet_to_dict rows =
      some (rows.map (fun p => (p.1, MixV.scalar p.2))) := by
  have hres := kv_fold_flatten (rows.map (fun p => (p.1, MixV.scalar p.2))) []
    (fun p _ => rfl)
    (by rw [List.map_map]; exact hnodup)
    (by
      intro p hp
      obtain ⟨q, hq, rfl⟩ := List.mem_map.mp hp
      exact hkeys q hq)
    (by
      intro p hp l hl
      obtain ⟨q, _, rfl⟩ := List.mem_map.mp hp
      simp at hl)
  rw [flatten_mix_scalar] at hres
  simpa [kv_sheet_to_dict] using hres

theorem asFlatKV_scalar (rows : List (String × QV)) :
    asFlatKV (rows.map (fun p => (p.1, MixV.scalar p.2))) = some rows := by
  induction rows with
  | nil => rfl
  | cons p t ih =>
    simp only [List.map_cons, asFlatKV, List.mapM_cons] at ih ⊢
    rw [ih]
    rfl

theorem coerce_dist_self (mix : List (String × MixV))
    (hnum : ∀ l, alLookup "Distribuição Embalado (%)" mix = some (MixV.dist l) →
      ∀ q ∈ l, ∃ r, q.2 = QV.num r) :
    coerce_dist mix = some mix := by
  unfold coerce_dist
  rcases hd : alLookup "Distribuição Embalado (%)" mix with _ | mv
  · rfl
  · cases mv with
    | scalar v => rfl
    | dist l =>
      have hl := hnum l hd
      have hmapM : l.mapM (fun q => (toFloat q.2).map (fun r => (q.1, QV.num r))) =
          some l := by
        clear hd
        induction l with
        | nil => rfl
        | cons q qr ih =>
          obtain ⟨r, hr⟩ := hl q (List.mem_cons_self q qr)
          rw [List.mapM_cons, ih (fun x hx => hl x (List.mem_cons_of_mem q hx))]
          rw [hr]
          show (some (q.1, QV.num r) >>= fun b => some (b :: qr)) = some (q :: qr)
          have : (q.1, QV.num r) = q := by
            rw [← hr]
          rw [this]
          rfl
      show (match l.mapM (fun q => (toFloat q.2).map (fun r => (q.1, QV.num r))) with
        | none => none
        | some l' => some (alInsert "Distribuição Embalado (%)" (MixV.dist l') mix)) =
          some mix
      rw [hmapM]
      show some (alInsert "Distribuição Embalado (%)" (MixV.dist l) mix) = some mix
      rw [alInsert_self _ _ _ hd]

theorem recompute_id (rd : List RecipeLine)
    (h : ∀ l ∈ rd, l.custoTotal = l.qtd * l.custoUnit) :
    rd.map recompute_line = rd := by
  induction rd with
  | nil => rfl
  | cons l t ih =>
    have hl := h l (List.mem_cons_self l t)
    simp only [List.map_cons]
    rw [ih (fun x hx => h x (List.mem_cons_of_mem l hx))]
    congr 1
    cases l
    simp only [recompute_line] at hl ⊢
    rw [← hl]

/-- C6.  Export/import round-trip: for every valid scenario —
non-empty mix/premises/financing groups with duplicate-free,
"::"-free keys whose nested distributions are non-empty,
duplicate-free, recombinable and (for the packaged distribution)
numeric, and whose recipe-line totals satisfy the stored invariant
total = quantity × unit cost — applying the bulk import to the
serialized field map reproduces the scenario exactly, with the line
totals recomputed as quantity × unit cost. -/
theorem C6_roundtrip (sc : ScenarioT)
    (hmix_ne : sc.mix ≠ [])
    (hprem_ne : sc.premissas ≠ [])
    (hfin_ne : sc.financiamento ≠ [])
    (hmix_nodup : (sc.mix.map Prod.fst).Nodup)
    (hmix_keys : ∀ p ∈ sc.mix, splitComposite p.1 = none)
    (hmix_dist : ∀ p ∈ sc.mix, ∀ l, p.2 = MixV.dist l → l ≠ [] ∧
        (l.map Prod.fst).Nodup ∧
        (∀ q ∈ l, splitComposite (p.1 ++ "::" ++ q.1) = some (p.1, q.1)))
    (hdist_num : ∀ l, alLookup "Distribuição Embalado (%)" sc.mix =
        some (MixV.dist l) → ∀ q ∈ l, ∃ r, q.2 = QV.num r)
    (hprem_nodup : (sc.premissas.map Prod.fst).Nodup)
    (hprem_keys : ∀ p ∈ sc.premissas, splitComposite p.1 = none)
    (hfin_nodup : (sc.financiamento.map Prod.fst).Nodup)
    (hfin_keys : ∀ p ∈ sc.financiamento, splitComposite p.1 = none)
    (hrd : ∀ l ∈ sc.receitasDetalhe, l.custoTotal = l.qtd * l.custoUnit) :
    importApply sc (serializeScenario sc) = some sc := by
  have hmixE : sc.mix.isEmpty = false := by
    cases h : sc.mix with
    | nil => exact absurd h hmix_ne
    | cons a t => rfl
  have hpremE : sc.premissas.isEmpty = false := by
    cases h : sc.premissas with
    | nil => exact absurd h hprem_ne
    | cons a t => rfl
  have hfinE : sc.financiamento.isEmpty = false := by
    cases h : sc.financiamento with
    | nil => exact absurd h hfin_ne
    | cons a t => rfl
  have hkv_mix : kv_sheet_to_dict (flatten_mix sc.mix) = some sc.mix := by
    have hres := kv_fold_flatten sc.mix [] (fun p _ => rfl)
      hmix_nodup hmix_keys hmix_dist
    simpa [kv_sheet_to_dict] using hres
  have hkv_prem := kv_sheet_flat sc.premissas hprem_nodup hprem_keys
  have hkv_fin := kv_sheet_flat sc.financiamento hfin_nodup hfin_keys
  have hco := coerce_dist_self sc.mix hdist_num
  have hrdmap := recompute_id sc.receitasDetalhe hrd
  have hfp := asFlatKV_scalar sc.premissas
  have hff := asFlatKV_scalar sc.financiamento
  have hpremME : (sc.premissas.map
      (fun p => (p.1, MixV.scalar p.2))).isEmpty = false := by
    cases h : sc.premissas with
    | nil => exact absurd h hprem_ne
    | cons a t => rfl
  have hfinME : (sc.financiamento.map
      (fun p => (p.1, MixV.scalar p.2))).isEmpty = false := by
    cases h : sc.financiamento with
    | nil => exact absurd h hfin_ne
    | cons a t => rfl
  simp only [importApply, serializeScenario, hmixE, hpremE, hfinE, hpremME, hfinME,
    Bool.false_eq_true, if_false, ite_self, hrdmap, hkv_mix, hkv_prem, hkv_fin,
    hco, hfp, hff]

/-- Witness for C6: a concrete one-row-per-group scenario with a scalar
and a nested-distribution mix entry round-trips exactly. -/
theorem C6_roundtrip_witness :
    importApply
      { capex := [⟨"Fermentação", "Tanque", 14500, "Orçado"⟩]
        opexOutros := [⟨"Aluguel", 5000⟩]
        funcionarios := [⟨"Cervejeiro", "CLT", 4500, 70, true, true⟩]
        insumos := [⟨"Malte", "Pilsen", "kg", 69/10⟩]
        receitasHeader := [⟨1, "IPA", 500⟩]
        receitasDetalhe := [⟨1, "Pilsen", 100, 69/10, 690⟩]
        embalagens := [⟨"Lata 473ml", 473/1000, 8/5⟩]
        precosSku := [⟨"Lata 473ml", "Varejo", 22⟩]
        mix := [("Volume Vendido (L/mês)", MixV.scalar (QV.num 2000)),
                ("Distribuição Embalado (%)", MixV.dist [("Lata 473ml", QV.num 100)]),
                ("Receita Base (para custo)", MixV.scalar (QV.str "IPA"))]
        premissas := [("GIP Químicos (R$/L)", QV.num (1/4)),
                      ("Impostos s/ venda (%)", QV.num 10)]
        financiamento := [("Ativo", QV.b false), ("Prazo (meses)", QV.num 48)] }
      (serializeScenario
      { capex := [⟨"Fermentação", "Tanque", 14500, "Orçado"⟩]
        opexOutros := [⟨"Aluguel", 5000⟩]
        funcionarios := [⟨"Cervejeiro", "CLT", 4500, 70, true, true⟩]
        insumos := [⟨"Malte", "Pilsen", "kg", 69/10⟩]
        receitasHeader := [⟨1, "IPA", 500⟩]
        receitasDetalhe := [⟨1, "Pilsen", 100, 69/10, 690⟩]
        embalagens := [⟨"Lata 473ml", 473/1000, 8/5⟩]
        precosSku := [⟨"Lata 473ml", "Varejo", 22⟩]
        mix := [("Volume Vendido (L/mês)", MixV.scalar (QV.num 2000)),
                ("Distribuição Embalado (%)", MixV.dist [("Lata 473ml", QV.num 100)]),
                ("Receita Base (para custo)", MixV.scalar (QV.str "IPA"))]
        premissas := [("GIP Químicos (R$/L)", QV.num (1/4)),
                      ("Impostos s/ venda (%)", QV.num 10)]
        financiamento := [("Ativo", QV.b false), ("Prazo (meses)", QV.num 48)] }) =
    some
      { capex := [⟨"Fermentação", "Tanque", 14500, "Orçado"⟩]
        opexOutros := [⟨"Aluguel", 5000⟩]
        funcionarios := [⟨"Cervejeiro", "CLT", 4500, 70, true, true⟩]
        insumos := [⟨"Malte", "Pilsen", "kg", 69/10⟩]
        receitasHeader := [⟨1, "IPA", 500⟩]
        receitasDetalhe := [⟨1, "Pilsen", 100, 69/10, 690⟩]
        embalagens := [⟨"Lata 473ml", 473/1000, 8/5⟩]
        precosSku := [⟨"Lata 473ml", "Varejo", 22⟩]
        mix := [("Volume Vendido (L/mês)", MixV.scalar (QV.num 2000)),
                ("Distribuição Embalado (%)", MixV.dist [("Lata 473ml", QV.num 100)]),
                ("Receita Base (para custo)", MixV.scalar (QV.str "IPA"))]
        premissas := [("GIP Químicos (R$/L)", QV.num (1/4)),
                      ("Impostos s/ venda (%)", QV.num 10)]
        financiamento := [("Ativo", QV.b false), ("Prazo (meses)", QV.num 48)] } := by
  refine C6_roundtrip _ (by decide) (by decide) (by decide) (by decide) (by decide)
    ?_ ?_ (by decide) (by decide) (by decide) (by decide) ?_
  · intro p hp l hl
    simp only [List.mem_cons, List.not_mem_nil, or_false] at hp
    rcases hp with rfl | rfl | rfl
    · simp at hl
    · injection hl with h
      subst h
      exact ⟨by decide, by decide, by decide⟩
    · simp at hl
  · intro l hl
    have h2 : some (MixV.dist [("Lata 473ml", QV.num 100)]) = some (MixV.dist l) := by
      rw [← hl]
      rfl
    injection h2 with h3
    injection h3 with h4
    subst h4
    intro q hq
    simp only [List.mem_singleton] at hq
    subst hq
    exact ⟨100, rfl⟩
  · intro l hl
    simp only [List.mem_singleton] at hl
    subst hl
    norm_num
